import Mathlib

/-!
Verification of the `issconsole` command-line client (`src/issconsole.py`).

The program is a request/parse/format pipeline with three operations
(`location`, `passing`, `people`) on the class `ISSSpaceStation`.  We embed it
shallowly:

* JSON values produced by `json.loads` are the inductive type `JValue`
  (objects keep their key order; `json.loads` output has unique keys, so
  first-match lookup coincides with Python dict lookup).
* Coordinates are rationals: the program only ever compares them with `<`/`>`
  against exactly representable bounds and never does float arithmetic, so
  the order structure is all that matters.
* Side effects (`click.echo`, `exit`, Python exceptions) live in the monad
  `Py`: a state of emitted lines plus a counter of outbound HTTP requests,
  with results `ok` / `exc` (a propagating Python exception) / `exited`
  (a call to `exit(code)`).
* The single `urllib.request.urlopen` call per operation is modelled by an
  environment value `HttpResult` saying what the network did: a transport
  error (`urllib.error.URLError` with its `.reason`), or a body whose
  `json.loads` outcome is either a parsed `JValue` or a
  `json.JSONDecodeError` (with `msg`, `doc`, `pos`, `lineno`, `colno`).
  `urlopen` is where the request counter is incremented.
* `str(datetime.fromtimestamp(t))` depends on the host timezone; it is the
  abstract parameter `fmtTime : Int → String` of each operation.
* `click.style(x, fg=...)` converts `x` with `str` and attaches the color;
  we record each echoed line as a `Styled` value (text, color, bold flag).
* An uncaught Python exception terminates CPython with process status 1;
  `exit(c)` terminates with `c`.  `runProgram` maps a computation to its
  emitted lines, exit code and request count accordingly (the dispatcher
  `cli()` exits 0 when a command returns normally).
-/

/-- A JSON value as returned by `json.loads`. -/
inductive JValue where
  | jNull
  | jBool (b : Bool)
  | jInt (n : Int)
  | jStr (s : String)
  | jArr (xs : List JValue)
  | jObj (fields : List (String × JValue))

instance : Inhabited JValue := ⟨.jNull⟩

/-- Python exceptions that can arise in this program. -/
inductive PyExc where
  | runtimeError (msg : String)
  | typeError (msg : String)
  | nameError (msg : String)
  | keyError (key : String)
  | indexError
  | valueError (msg : String)
deriving DecidableEq

/-- `type(e).__name__`. -/
def PyExc.className : PyExc → String
  | .runtimeError _ => "RuntimeError"
  | .typeError _ => "TypeError"
  | .nameError _ => "NameError"
  | .keyError _ => "KeyError"
  | .indexError => "IndexError"
  | .valueError _ => "ValueError"

/-- A lowercase hexadecimal digit. -/
def hexDigit (n : Nat) : Char :=
  if n < 10 then Char.ofNat (48 + n) else Char.ofNat (87 + n)

/-- Two lowercase hexadecimal digits, as in CPython's `\xNN` escapes. -/
def hex2 (n : Nat) : String :=
  String.mk [hexDigit (n / 16 % 16), hexDigit (n % 16)]

/-- CPython `repr` rendering of one character inside a string literal
delimited by `quote`: backslash and the delimiter are backslash-escaped,
tab/newline/carriage-return get their short escapes, the remaining ASCII
control characters and DEL are shown as `\xNN`.  Characters at or above
U+0080 are rendered as-is (CPython additionally escapes the non-printable
ones among them; this model covers the ASCII range exactly). -/
def pyReprChar (quote : Char) (c : Char) : String :=
  if c = '\\' then "\\\\"
  else if c = quote then "\\" ++ String.mk [quote]
  else if c = '\t' then "\\t"
  else if c = '\n' then "\\n"
  else if c = '\r' then "\\r"
  else if c.toNat < 32 || c.toNat = 127 then "\\x" ++ hex2 c.toNat
  else String.mk [c]

/-- CPython `repr` of a string: single-quoted by default; double-quoted
when the string contains a single quote but no double quote; the
delimiter, backslashes and ASCII control characters are escaped as in
`pyReprChar`. -/
def pyReprStr (s : String) : String :=
  if s.contains '\x27' && !(s.contains '"') then
    "\"" ++ String.join (s.data.map (pyReprChar '"')) ++ "\""
  else
    "\x27" ++ String.join (s.data.map (pyReprChar '\x27')) ++ "\x27"

/-- `str(e)` (for `KeyError`, Python shows the `repr` of the key). -/
def PyExc.pyMsg : PyExc → String
  | .runtimeError m => m
  | .typeError m => m
  | .nameError m => m
  | .keyError k => pyReprStr k
  | .indexError => "list index out of range"
  | .valueError m => m

/-- Whether the exception is caught by
`except (RuntimeError, TypeError, NameError, KeyError)` (the handler shared
by all three operations). -/
def PyExc.caughtByCommon : PyExc → Bool
  | .runtimeError _ => true
  | .typeError _ => true
  | .nameError _ => true
  | .keyError _ => true
  | .indexError => false
  | .valueError _ => false

/-- First-match association-list lookup; on `json.loads` output keys are
unique, so this is Python dict lookup. -/
def findField : List (String × JValue) → String → Option JValue
  | [], _ => none
  | (k, v) :: rest, key => if k == key then some v else findField rest key

/-- Python `obj[key]` with a string key. -/
def JValue.getItem : JValue → String → Except PyExc JValue
  | .jObj fields, key =>
    match findField fields key with
    | some v => .ok v
    | none => .error (.keyError key)
  | .jArr _, _ => .error (.typeError "list indices must be integers or slices, not str")
  | .jStr _, _ => .error (.typeError "string indices must be integers")
  | .jInt _, _ => .error (.typeError "\x27int\x27 object is not subscriptable")
  | .jBool _, _ => .error (.typeError "\x27bool\x27 object is not subscriptable")
  | .jNull, _ => .error (.typeError "\x27NoneType\x27 object is not subscriptable")

/-- Python `obj[i]` with a nonnegative integer index (the loops use
`range(...)`, so only nonnegative indices occur). -/
def JValue.index : JValue → Nat → Except PyExc JValue
  | .jArr xs, i =>
    if h : i < xs.length then .ok (xs.get ⟨i, h⟩) else .error .indexError
  | .jObj _, i => .error (.keyError (toString i))
  | .jStr s, i =>
    if h : i < s.data.length then .ok (.jStr ⟨[s.data.get ⟨i, h⟩]⟩)
    else .error .indexError
  | .jInt _, _ => .error (.typeError "\x27int\x27 object is not subscriptable")
  | .jBool _, _ => .error (.typeError "\x27bool\x27 object is not subscriptable")
  | .jNull, _ => .error (.typeError "\x27NoneType\x27 object is not subscriptable")

/-- Python `v == lit` for a string literal `lit`. -/
def JValue.eqStr : JValue → String → Bool
  | .jStr s, t => s == t
  | _, _ => false

/-- Decimal digits to a number; `none` on the first non-digit. -/
def digitsAux : List Char → Nat → Option Nat
  | [], acc => some acc
  | c :: rest, acc =>
    if c.isDigit then digitsAux rest (acc * 10 + (c.toNat - 48)) else none

/-- One or more decimal digits. -/
def pyDigits : List Char → Option Nat
  | [] => none
  | cs => digitsAux cs 0

/-- Python `int(str)` parsing: surrounding whitespace is stripped, then an
optional sign and one or more decimal digits (Python additionally accepts
underscore separators between digits; not modelled). -/
def pyStrToInt? (s : String) : Option Int :=
  match (s.data.dropWhile Char.isWhitespace).reverse.dropWhile Char.isWhitespace |>.reverse with
  | '-' :: rest => (pyDigits rest).map (fun n => -(n : Int))
  | '+' :: rest => (pyDigits rest).map (fun n => (n : Int))
  | rest => (pyDigits rest).map (fun n => (n : Int))

/-- The `TypeError` message of `int(None)`. -/
def intOfNoneMsg : String :=
  "int() argument must be a string, a bytes-like object or a real number, not \x27NoneType\x27"

/-- Python `int(v)`.  `ValueError` from a non-numeric string is not caught
by the operations' handlers. -/
def pyInt : JValue → Except PyExc Int
  | .jInt n => .ok n
  | .jBool b => .ok (if b then 1 else 0)
  | .jStr s =>
    match pyStrToInt? s with
    | some n => .ok n
    | none => .error (.valueError ("invalid literal for int() with base 10: " ++ pyReprStr s))
  | .jNull => .error (.typeError intOfNoneMsg)
  | .jArr _ => .error (.typeError "int() argument must be a string, a bytes-like object or a real number, not \x27list\x27")
  | .jObj _ => .error (.typeError "int() argument must be a string, a bytes-like object or a real number, not \x27dict\x27")

mutual
/-- Python `repr(v)` for a `json.loads` value. -/
def JValue.pyRepr : JValue → String
  | .jNull => "None"
  | .jBool b => if b then "True" else "False"
  | .jInt n => toString n
  | .jStr s => pyReprStr s
  | .jArr xs => "[" ++ pyReprList xs ++ "]"
  | .jObj fs => "\x7b" ++ pyReprFields fs ++ "\x7d"

/-- Comma-separated `repr`s of list elements. -/
def pyReprList : List JValue → String
  | [] => ""
  | [x] => x.pyRepr
  | x :: y :: rest => x.pyRepr ++ ", " ++ pyReprList (y :: rest)

/-- Comma-separated `repr(key): repr(value)` pairs of a dict. -/
def pyReprFields : List (String × JValue) → String
  | [] => ""
  | [(k, v)] => pyReprStr k ++ ": " ++ v.pyRepr
  | (k, v) :: p :: rest => pyReprStr k ++ ": " ++ v.pyRepr ++ ", " ++ pyReprFields (p :: rest)
end

/-- Python `str(v)`: like `repr` except on strings, where it is the string
itself. -/
def JValue.pyStr : JValue → String
  | .jStr s => s
  | v => v.pyRepr

/-- Python format spec `{x: >20}`-style right alignment: pad on the left
with spaces to the given minimum width. -/
def padLeft (w : Nat) (s : String) : String :=
  String.mk (List.replicate (w - s.length) ' ') ++ s

/-- One line written by `click.echo(click.style(text, fg, bold))`. -/
structure Styled where
  text : String
  fg : String
  bold : Bool
deriving DecidableEq, Repr

instance : Inhabited Styled := ⟨⟨"", "", false⟩⟩

/-- Observable state of a run: lines echoed so far and the number of
outbound HTTP requests issued so far. -/
structure PyOut where
  lines : List Styled
  requests : Nat
deriving DecidableEq, Repr

/-- Result of a program fragment: normal value, propagating Python
exception, or a `exit(code)` call unwinding the process. -/
inductive PyResult (α : Type) where
  | ok (a : α)
  | exc (e : PyExc)
  | exited (code : Int)

/-- The effect monad of the embedded program. -/
def Py (α : Type) : Type := PyOut → PyResult α × PyOut

/-- Sequencing: exceptions and `exit` short-circuit, output accumulates. -/
def Py.bind {α β : Type} (m : Py α) (f : α → Py β) : Py β := fun s =>
  match m s with
  | (.ok a, s1) => f a s1
  | (.exc e, s1) => (.exc e, s1)
  | (.exited c, s1) => (.exited c, s1)

instance : Monad Py where
  pure a := fun s => (.ok a, s)
  bind := Py.bind

/-- `click.echo(click.style(...))`. -/
def echo (l : Styled) : Py Unit := fun s =>
  (.ok (), ⟨s.lines ++ [l], s.requests⟩)

/-- Bump the outbound-request counter (performed exactly where
`urllib.request.urlopen` runs). -/
def countRequest : Py Unit := fun s => (.ok (), ⟨s.lines, s.requests + 1⟩)

/-- Raise a Python exception. -/
def pyRaise {α : Type} (e : PyExc) : Py α := fun s => (.exc e, s)

/-- Python `exit(code)`: unwinds everything (modelled as polymorphic since
control never returns). -/
def pyExit {α : Type} (code : Int) : Py α := fun s => (.exited code, s)

/-- Run an `Except`-valued Python expression, propagating its exception. -/
def liftExc {α : Type} : Except PyExc α → Py α
  | .ok a => pure a
  | .error e => pyRaise e

/-- Whole-process observation: echoed lines, process exit code, number of
requests.  A normal return from the command exits 0 (click's standalone
mode); `exit(c)` exits `c`; an uncaught exception makes CPython print a
traceback to stderr and exit 1. -/
structure ProgramResult where
  output : List Styled
  exitCode : Int
  requests : Nat
deriving DecidableEq, Repr

def runProgram (p : Py Unit) : ProgramResult :=
  match p ⟨[], 0⟩ with
  | (.ok _, s) => ⟨s.lines, 0, s.requests⟩
  | (.exited c, s) => ⟨s.lines, c, s.requests⟩
  | (.exc _, s) => ⟨s.lines, 1, s.requests⟩

/-- A `urllib.request.Request` object (wraps the URL string). -/
structure Request where
  full_url : String

/-- What the network and `json.loads` did for the operation's single
request: `urllib.error.URLError` with its `.reason`, or a body whose JSON
decoding produced a value or a `json.JSONDecodeError`. -/
inductive JsonOutcome where
  | parsed (v : JValue)
  | decodeError (msg doc : String) (pos lineno colno : Nat)

inductive HttpResult where
  | urlError (reason : String)
  | success (body : JsonOutcome)

namespace ISSSpaceStation

def LOCATION_URL : String := "http://api.open-notify.org/iss-now.json"
def PASSING_URL : String := "http://api.open-notify.org/iss-pass.json"
def PEOPLE_URL : String := "http://api.open-notify.org/astros.json"

/-- `request_error`: echo `str(re.reason)` in red and `exit(-1)`. -/
def request_error {α : Type} (reason : String) : Py α := Py.bind
  (echo ⟨reason, "red", false⟩) (fun _ => pyExit (-1))

/-- `json_error`: echo the decode error's `msg`, `doc`, `pos`, `lineno`,
`colno` (each styled red; `click.style` str-converts the integers) and
`exit(-1)`. -/
def json_error {α : Type} (msg doc : String) (pos lineno colno : Nat) : Py α := do
  echo ⟨msg, "red", false⟩
  echo ⟨doc, "red", false⟩
  echo ⟨toString pos, "red", false⟩
  echo ⟨toString lineno, "red", false⟩
  echo ⟨toString colno, "red", false⟩
  pyExit (-1)

/-- The single red line printed by `common_error`. -/
def commonMsg (e : PyExc) (obj : JValue) : String :=
  "Common error.\nError type: " ++ e.className
    ++ "\nError: " ++ e.pyMsg
    ++ "\nData: " ++ obj.pyStr

/-- `common_error`: report the caught exception and the parsed object,
then `exit(-1)`. -/
def common_error {α : Type} (e : PyExc) (obj : JValue) : Py α := do
  echo ⟨commonMsg e obj, "red", false⟩
  pyExit (-1)

/-- The message of the `TypeError` raised by
`'Unknown error. Url: ' + url` when `url` is a `urllib.request.Request`
object (as it is at every call site of `message_error`). -/
def strPlusRequestMsg : String :=
  "can only concatenate str (not \"Request\") to str"

/-- `message_error`: on `message == "failure"` echo `str(obj['reason'])` in
red and `exit(-1)`; otherwise the code attempts
`'Unknown error. Url: ' + url + ...` — but `url` is a `Request` object, so
the concatenation raises `TypeError` before anything is printed. -/
def message_error {α : Type} (obj : JValue) (url : Request) : Py α := do
  let m ← liftExc (obj.getItem "message")
  if m.eqStr "failure" then
    let r ← liftExc (obj.getItem "reason")
    echo ⟨r.pyStr, "red", false⟩
  else
    pyRaise (.typeError strPlusRequestMsg)
  pyExit (-1)

/-- `response = urllib.request.urlopen(url)` wrapped in
`try ... except urllib.error.URLError: request_error(re)`, followed by
`json.loads(response.read())` seen as the environment's outcome. -/
def fetch (env : HttpResult) : Py JsonOutcome := do
  countRequest
  match env with
  | .urlError reason => request_error reason
  | .success body => pure body

/-- `obj = json.loads(...)` wrapped in
`try ... except json.JSONDecodeError: json_error(je)`. -/
def parseBody : JsonOutcome → Py JValue
  | .parsed v => pure v
  | .decodeError msg doc pos lineno colno => json_error msg doc pos lineno colno

/-- `try: body except (RuntimeError, TypeError, NameError, KeyError) as ce:
common_error(ce, obj)`.  Other exceptions (notably `IndexError` and
`ValueError`) propagate. -/
def tryCommon (obj : JValue) (body : Py Unit) : Py Unit := fun s =>
  match body s with
  | (.exc e, s1) =>
    if e.caughtByCommon then common_error e obj s1 else (.exc e, s1)
  | r => r

/-- `for x in range(n)` over a monadic body; `go i k` runs the body at
indices `i, i+1, ..., i+k-1`. -/
def pyForRange (body : Nat → Py Unit) : Nat → Nat → Py Unit
  | _, 0 => pure ()
  | i, k + 1 => Py.bind (body i) (fun _ => pyForRange body (i + 1) k)

/-! ### `location` -/

/-- Success-branch / failure-branch body of `location` (the part inside its
`try`). -/
def locationBody (fmtTime : Int → String) (obj : JValue) (url : Request) : Py Unit := do
  let m ← liftExc (obj.getItem "message")
  if m.eqStr "success" then
    let timestamp ← liftExc (Except.bind (obj.getItem "timestampss") pyInt)
    let ts := fmtTime timestamp
    let latitude ← liftExc (Except.bind (obj.getItem "iss_position") (fun p => p.getItem "latitude"))
    let longitude ← liftExc (Except.bind (obj.getItem "iss_position") (fun p => p.getItem "longitude"))
    echo ⟨"\nThe ISS current location", "bright_white", true⟩
    echo ⟨"\nTime:      " ++ ts, "green", false⟩
    echo ⟨"Latitude:  " ++ latitude.pyStr, "green", false⟩
    echo ⟨"Longitude: " ++ longitude.pyStr, "green", false⟩
  else
    message_error obj url

/-- `ISSSpaceStation.location` (a classmethod). -/
def location (fmtTime : Int → String) (env : HttpResult) : Py Unit := do
  let url : Request := ⟨LOCATION_URL⟩
  let body ← fetch env
  let obj ← parseBody body
  tryCommon obj (locationBody fmtTime obj url)

/-! ### `passing` -/

/-- Body of `for x in range(passes)`: both field chains re-index
`obj['response'][x]`; `duration` is `str`-converted, `risetime` is
`int`-converted and then formatted through `datetime.fromtimestamp`. -/
def passLoopBody (fmtTime : Int → String) (obj : JValue) (x : Nat) : Py Unit := do
  let d ← liftExc (Except.bind (obj.getItem "response")
    (fun a => Except.bind (a.index x) (fun e => e.getItem "duration")))
  let duration := d.pyStr
  let risetime ← liftExc (Except.bind (obj.getItem "response")
    (fun a => Except.bind (a.index x) (fun e => Except.bind (e.getItem "risetime") pyInt)))
  let rs := fmtTime risetime
  echo ⟨"| " ++ padLeft 20 duration ++ " | " ++ padLeft 20 rs ++ "|", "green", false⟩

/-- Success-branch / failure-branch of `passing` inside its `try`. -/
def passingBody (fmtTime : Int → String) (obj : JValue) (url : Request) : Py Unit := do
  let m ← liftExc (obj.getItem "message")
  if m.eqStr "success" then
    let latitude ← liftExc (Except.bind (obj.getItem "request") (fun r => r.getItem "latitude"))
    let longitude ← liftExc (Except.bind (obj.getItem "request") (fun r => r.getItem "longitude"))
    let passes ← liftExc (Except.bind (obj.getItem "request")
      (fun r => Except.bind (r.getItem "passes") pyInt))
    echo ⟨"\nThe ISS will be overhead", "bright_white", true⟩
    echo ⟨"\nLatitude:  " ++ latitude.pyStr, "green", false⟩
    echo ⟨"Longitude: " ++ longitude.pyStr, "green", false⟩
    echo ⟨"Passes: " ++ toString passes ++ "\n", "green", false⟩
    echo ⟨"----------------------------------------------", "green", false⟩
    echo ⟨"| Duration             | Risetime            |", "green", false⟩
    echo ⟨"-----------------------+----------------------", "green", false⟩
    pyForRange (passLoopBody fmtTime obj) 0 passes.toNat
  else
    message_error obj url

/-- The whole `try` block of `passing`: after the `if`/`else`, one more
divider line is echoed (reachable only on the success path, since
`message_error` never returns). -/
def passingTry (fmtTime : Int → String) (obj : JValue) (url : Request) : Py Unit := do
  passingBody fmtTime obj url
  echo ⟨"----------------------------------------------", "green", false⟩

/-- A rough `str(float)` for the query string (the encoded URL is never
part of any printed output, so its exact float formatting is
unobservable). -/
def pyFloatStr (q : Rat) : String :=
  if q.den = 1 then toString q.num ++ ".0" else toString q

/-- `urllib.parse.urlencode({'lat': lat, 'lon': lon})`. -/
def urlencodeLatLon (lat lon : Rat) : String :=
  "lat=" ++ pyFloatStr lat ++ "&lon=" ++ pyFloatStr lon

/-- `ISSSpaceStation.passing` (a classmethod): validate latitude, then
longitude (each violation echoes its message and exits `-1` before any
request), then issue the single request and process the response. -/
def passing (fmtTime : Int → String) (latitide longitude : Rat) (env : HttpResult) : Py Unit := do
  if latitide < -80 ∨ latitide > 80 then
    echo ⟨"Latitude must be number between -80.0 and 80.0", "red", false⟩
    pyExit (-1)
  if longitude < -180 ∨ longitude > 180 then
    echo ⟨"Longitude must be number between -180.0 and 180.0", "red", false⟩
    pyExit (-1)
  let url : Request := ⟨PASSING_URL ++ "?" ++ urlencodeLatLon latitide longitude⟩
  let body ← fetch env
  let obj ← parseBody body
  tryCommon obj (passingTry fmtTime obj url)

/-! ### `people` -/

/-- Body of `for i in range(number_of_people_in_space)`. -/
def peopleLoopBody (obj : JValue) (i : Nat) : Py Unit := do
  let p ← liftExc (Except.bind (obj.getItem "people")
    (fun a => Except.bind (a.index i) (fun e => e.getItem "name")))
  let person := p.pyStr
  let c ← liftExc (Except.bind (obj.getItem "people")
    (fun a => Except.bind (a.index i) (fun e => e.getItem "craft")))
  let craft := c.pyStr
  echo ⟨"| " ++ padLeft 20 person ++ " | " ++ padLeft 20 craft ++ "|", "green", false⟩

/-- Success-branch / failure-branch of `people` inside its `try`. -/
def peopleBody (obj : JValue) (url : Request) : Py Unit := do
  let m ← liftExc (obj.getItem "message")
  if m.eqStr "success" then
    let number ← liftExc (Except.bind (obj.getItem "number") pyInt)
    echo ⟨"\nThe people now on the Space\n", "bright_white", true⟩
    echo ⟨"----------------------------------------------", "green", false⟩
    echo ⟨"| Name                 | Craft               |", "green", false⟩
    echo ⟨"-----------------------+----------------------", "green", false⟩
    pyForRange (peopleLoopBody obj) 0 number.toNat
  else
    message_error obj url

/-- The whole `try` block of `people` (trailing divider as in `passing`). -/
def peopleTry (obj : JValue) (url : Request) : Py Unit := do
  peopleBody obj url
  echo ⟨"----------------------------------------------", "green", false⟩

/-- `ISSSpaceStation.people` (a classmethod).  The time parameter is absent
because `people` formats no timestamps. -/
def people (env : HttpResult) : Py Unit := do
  let url : Request := ⟨PEOPLE_URL⟩
  let body ← fetch env
  let obj ← parseBody body
  tryCommon obj (peopleTry obj url)

end ISSSpaceStation

/-- Constructor state: `self.latitude = latitude,` has a trailing comma, so
the attribute holds the one-element tuple `(latitude,)` (modelled as a
one-element list); `self.longitude = longitude` holds the number. -/
structure ISSInstance where
  latitude : List Rat
  longitude : Rat
deriving DecidableEq

/-- `ISSSpaceStation.__init__` with its defaults. -/
def ISSSpaceStation.init (latitude : Rat := 0) (longitude : Rat := 0) : ISSInstance :=
  ⟨[latitude], longitude⟩

/-- Calling the classmethod `location` through an instance: Python binds
`cls`, not `self`, so the body cannot consult the instance attributes. -/
def ISSSpaceStation.locationVia (_self : ISSInstance) (fmtTime : Int → String)
    (env : HttpResult) : ProgramResult :=
  runProgram (ISSSpaceStation.location fmtTime env)

/-- Calling the classmethod `passing` through an instance (the coordinates
the operation uses are its own arguments, as in `make_passing`). -/
def ISSSpaceStation.passingVia (_self : ISSInstance) (fmtTime : Int → String)
    (lat lon : Rat) (env : HttpResult) : ProgramResult :=
  runProgram (ISSSpaceStation.passing fmtTime lat lon env)

/-- Calling the classmethod `people` through an instance. -/
def ISSSpaceStation.peopleVia (_self : ISSInstance) (env : HttpResult) : ProgramResult :=
  runProgram (ISSSpaceStation.people env)

/-- The `pass` subcommand: `make_passing` constructs
`ISSSpaceStation(float(lat), float(lon))` and calls
`iss.passing(float(lat), float(lon))`. -/
def make_passing (fmtTime : Int → String) (lat lon : Rat) (env : HttpResult) : ProgramResult :=
  ISSSpaceStation.passingVia (ISSSpaceStation.init lat lon) fmtTime lat lon env

/-- The `loc` subcommand. -/
def make_loc (fmtTime : Int → String) (env : HttpResult) : ProgramResult :=
  ISSSpaceStation.locationVia (ISSSpaceStation.init) fmtTime env

/-- The `people` subcommand. -/
def make_people (env : HttpResult) : ProgramResult :=
  ISSSpaceStation.peopleVia (ISSSpaceStation.init) env

/-! ### Canonical response shapes and rendered rows -/

/-- The divider line `'-'*46` echoed around the tables. -/
def dashLine : Styled := ⟨"----------------------------------------------", "green", false⟩

/-- The `'---+---'` divider under the table headers. -/
def midLine : Styled := ⟨"-----------------------+----------------------", "green", false⟩

/-- The `passing` table header row. -/
def passTableHdr : Styled := ⟨"| Duration             | Risetime            |", "green", false⟩

/-- The `people` table header row. -/
def peopleTableHdr : Styled := ⟨"| Name                 | Craft               |", "green", false⟩

/-- A successful `passing` response body:
`{message, request:{latitude,longitude,passes}, response:[...]}`. -/
def mkPassObj (latV lonV : JValue) (passes : Int) (entries : List JValue) : JValue :=
  .jObj [("message", .jStr "success"),
         ("request", .jObj [("latitude", latV), ("longitude", lonV), ("passes", .jInt passes)]),
         ("response", .jArr entries)]

/-- A successful `people` response body: `{message, number, people:[...]}`. -/
def mkPeopleObj (number : Int) (entries : List JValue) : JValue :=
  .jObj [("message", .jStr "success"),
         ("number", .jInt number),
         ("people", .jArr entries)]

/-- A `passing` response entry is renderable: its `duration` lookup and its
`int(...['risetime'])` conversion both succeed. -/
def passRowOk (e : JValue) : Prop :=
  (e.getItem "duration").isOk = true
    ∧ (Except.bind (e.getItem "risetime") pyInt).isOk = true

instance (e : JValue) : Decidable (passRowOk e) := by
  unfold passRowOk
  infer_instance

/-- The table row `passing` prints for one response entry. -/
def passRowOf (fmtTime : Int → String) (e : JValue) : Styled :=
  match e.getItem "duration", Except.bind (e.getItem "risetime") pyInt with
  | .ok d, .ok r =>
    ⟨"| " ++ padLeft 20 d.pyStr ++ " | " ++ padLeft 20 (fmtTime r) ++ "|", "green", false⟩
  | _, _ => default

/-- A `people` entry is renderable: `name` and `craft` lookups succeed. -/
def peopleRowOk (e : JValue) : Prop :=
  (e.getItem "name").isOk = true ∧ (e.getItem "craft").isOk = true

instance (e : JValue) : Decidable (peopleRowOk e) := by
  unfold peopleRowOk
  infer_instance

/-- The table row `people` prints for one person entry. -/
def peopleRowOf (e : JValue) : Styled :=
  match e.getItem "name", e.getItem "craft" with
  | .ok n, .ok c =>
    ⟨"| " ++ padLeft 20 n.pyStr ++ " | " ++ padLeft 20 c.pyStr ++ "|", "green", false⟩
  | _, _ => default

/-- The lines `passing` echoes before its table rows. -/
def passHeader (latV lonV : JValue) (passes : Int) : List Styled :=
  [⟨"\nThe ISS will be overhead", "bright_white", true⟩,
   ⟨"\nLatitude:  " ++ latV.pyStr, "green", false⟩,
   ⟨"Longitude: " ++ lonV.pyStr, "green", false⟩,
   ⟨"Passes: " ++ toString passes ++ "\n", "green", false⟩,
   dashLine, passTableHdr, midLine]

/-- The lines `people` echoes before its table rows. -/
def peopleHeader : List Styled :=
  [⟨"\nThe people now on the Space\n", "bright_white", true⟩,
   dashLine, peopleTableHdr, midLine]

/-! ### Loop lemmas -/

/-- If every loop body below `bound` just appends its row, the whole
`for x in range(...)` appends the rows in index order. -/
theorem pyForRange_ok (body : Nat → Py Unit) (r : Nat → Styled) (bound : Nat)
    (hbody : ∀ j, j < bound → ∀ s, body j s = (.ok (), ⟨s.lines ++ [r j], s.requests⟩)) :
    ∀ k i, i + k ≤ bound → ∀ s,
      ISSSpaceStation.pyForRange body i k s
        = (.ok (), ⟨s.lines ++ (List.range' i k).map r, s.requests⟩) := by
  intro k
  induction k with
  | zero =>
    intro i _ s
    show (PyResult.ok (), s) = _
    simp
  | succ k ih =>
    intro i h s
    show Py.bind (body i) (fun _ => ISSSpaceStation.pyForRange body (i + 1) k) s = _
    unfold Py.bind
    rw [hbody i (by omega) s]
    simp only [ih (i + 1) (by omega)]
    rw [List.range'_succ]
    simp [List.append_assoc]

/-- If the loop body succeeds below `bound` but raises `IndexError` at
`bound`, a loop told to run past `bound` prints the first `bound - i` rows
and then propagates `IndexError`. -/
theorem pyForRange_overrun (body : Nat → Py Unit) (r : Nat → Styled) (bound : Nat)
    (hbody : ∀ j, j < bound → ∀ s, body j s = (.ok (), ⟨s.lines ++ [r j], s.requests⟩))
    (hfail : ∀ s, body bound s = (.exc .indexError, s)) :
    ∀ k i, i ≤ bound → bound < i + k → ∀ s,
      ISSSpaceStation.pyForRange body i k s
        = (.exc .indexError, ⟨s.lines ++ (List.range' i (bound - i)).map r, s.requests⟩) := by
  intro k
  induction k with
  | zero =>
    intro i h1 h2 s
    exact absurd h2 (by omega)
  | succ k ih =>
    intro i h1 h2 s
    by_cases hib : i = bound
    · subst hib
      show Py.bind (body i) (fun _ => ISSSpaceStation.pyForRange body (i + 1) k) s = _
      unfold Py.bind
      rw [hfail s]
      simp
    · have hb := hbody i (by omega) s
      show Py.bind (body i) (fun _ => ISSSpaceStation.pyForRange body (i + 1) k) s = _
      unfold Py.bind
      rw [hb]
      simp only [ih (i + 1) (by omega) (by omega)]
      have hs : bound - i = (bound - (i + 1)) + 1 := by omega
      rw [hs, List.range'_succ]
      simp [List.append_assoc]

/-- Indexing rows through `range'` is mapping over the list itself. -/
theorem range'_map_getD {α β : Type} (g : α → β) (d : α) :
    ∀ (l : List α) (i : Nat),
      (List.range' i l.length).map (fun j => g (l.getD (j - i) d)) = l.map g := by
  intro l
  induction l with
  | nil => intro i; rfl
  | cons x xs ih =>
    intro i
    rw [List.length_cons, List.range'_succ, List.map_cons, List.map_cons]
    congr 1
    · simp
    · rw [← ih (i + 1)]
      apply List.map_congr_left
      intro j hj
      have h1 : i + 1 ≤ j := (List.mem_range'_1.mp hj).1
      have hji : j - i = (j - (i + 1)) + 1 := by omega
      rw [hji, List.getD_cons_succ]

/-! ### Evaluating the loop bodies on canonical responses -/

/-- Indexing the canonical array in bounds. -/
theorem jArr_index_lt (entries : List JValue) (j : Nat) (hj : j < entries.length) :
    (JValue.jArr entries).index j = Except.ok (entries.getD j JValue.jNull) := by
  simp only [JValue.index, hj, dif_pos]
  rw [List.getD_eq_getElem entries JValue.jNull hj]
  simp

/-- Indexing the canonical array at its length raises `IndexError`. -/
theorem jArr_index_end (entries : List JValue) :
    (JValue.jArr entries).index entries.length = Except.error PyExc.indexError := by
  simp [JValue.index]

/-- A `passing` loop iteration in bounds appends exactly its row. -/
theorem passLoopBody_eval (f : Int → String) (latV lonV : JValue) (p : Int)
    (entries : List JValue) (hwf : ∀ e ∈ entries, passRowOk e) :
    ∀ j, j < entries.length → ∀ s,
      ISSSpaceStation.passLoopBody f (mkPassObj latV lonV p entries) j s
        = (.ok (), ⟨s.lines ++ [passRowOf f (entries.getD j .jNull)], s.requests⟩) := by
  intro j hj s
  have hmem : entries.getD j JValue.jNull ∈ entries := by
    rw [List.getD_eq_getElem entries JValue.jNull hj]
    exact List.getElem_mem hj
  obtain ⟨h1, h2⟩ := hwf _ hmem
  cases hd : (entries.getD j JValue.jNull).getItem "duration" with
  | error e => rw [hd] at h1; simp [Except.isOk, Except.toBool] at h1
  | ok d =>
    cases hr : Except.bind ((entries.getD j JValue.jNull).getItem "risetime") pyInt with
    | error e => rw [hr] at h2; simp [Except.isOk, Except.toBool] at h2
    | ok r =>
      have hc1 : Except.bind ((mkPassObj latV lonV p entries).getItem "response")
          (fun a => Except.bind (a.index j) (fun e => e.getItem "duration"))
          = Except.ok d := by
        show Except.bind ((JValue.jArr entries).index j) (fun e => e.getItem "duration") = _
        rw [jArr_index_lt entries j hj]
        exact hd
      have hc2 : Except.bind ((mkPassObj latV lonV p entries).getItem "response")
          (fun a => Except.bind (a.index j) (fun e => Except.bind (e.getItem "risetime") pyInt))
          = Except.ok r := by
        show Except.bind ((JValue.jArr entries).index j)
          (fun e => Except.bind (e.getItem "risetime") pyInt) = _
        rw [jArr_index_lt entries j hj]
        exact hr
      simp only [ISSSpaceStation.passLoopBody, hc1, hc2]
      rw [passRowOf, hd, hr]
      rfl

/-- The `passing` loop iteration at index `entries.length` raises
`IndexError` before printing anything. -/
theorem passLoopBody_fail (f : Int → String) (latV lonV : JValue) (p : Int)
    (entries : List JValue) :
    ∀ s, ISSSpaceStation.passLoopBody f (mkPassObj latV lonV p entries) entries.length s
      = (.exc .indexError, s) := by
  intro s
  have hc1 : Except.bind ((mkPassObj latV lonV p entries).getItem "response")
      (fun a => Except.bind (a.index entries.length) (fun e => e.getItem "duration"))
      = Except.error PyExc.indexError := by
    show Except.bind ((JValue.jArr entries).index entries.length)
      (fun e => e.getItem "duration") = _
    rw [jArr_index_end entries]
    rfl
  simp only [ISSSpaceStation.passLoopBody, hc1]
  rfl

/-- A `people` loop iteration in bounds appends exactly its row. -/
theorem peopleLoopBody_eval (number : Int) (entries : List JValue)
    (hwf : ∀ e ∈ entries, peopleRowOk e) :
    ∀ j, j < entries.length → ∀ s,
      ISSSpaceStation.peopleLoopBody (mkPeopleObj number entries) j s
        = (.ok (), ⟨s.lines ++ [peopleRowOf (entries.getD j .jNull)], s.requests⟩) := by
  intro j hj s
  have hmem : entries.getD j JValue.jNull ∈ entries := by
    rw [List.getD_eq_getElem entries JValue.jNull hj]
    exact List.getElem_mem hj
  obtain ⟨h1, h2⟩ := hwf _ hmem
  cases hn : (entries.getD j JValue.jNull).getItem "name" with
  | error e => rw [hn] at h1; simp [Except.isOk, Except.toBool] at h1
  | ok n =>
    cases hc : (entries.getD j JValue.jNull).getItem "craft" with
    | error e => rw [hc] at h2; simp [Except.isOk, Except.toBool] at h2
    | ok c =>
      have hc1 : Except.bind ((mkPeopleObj number entries).getItem "people")
          (fun a => Except.bind (a.index j) (fun e => e.getItem "name"))
          = Except.ok n := by
        show Except.bind ((JValue.jArr entries).index j) (fun e => e.getItem "name") = _
        rw [jArr_index_lt entries j hj]
        exact hn
      have hc2 : Except.bind ((mkPeopleObj number entries).getItem "people")
          (fun a => Except.bind (a.index j) (fun e => e.getItem "craft"))
          = Except.ok c := by
        show Except.bind ((JValue.jArr entries).index j) (fun e => e.getItem "craft") = _
        rw [jArr_index_lt entries j hj]
        exact hc
      simp only [ISSSpaceStation.peopleLoopBody, hc1, hc2]
      rw [peopleRowOf, hn, hc]
      rfl

/-- The `people` loop iteration at index `entries.length` raises
`IndexError` before printing anything. -/
theorem peopleLoopBody_fail (number : Int) (entries : List JValue) :
    ∀ s, ISSSpaceStation.peopleLoopBody (mkPeopleObj number entries) entries.length s
      = (.exc .indexError, s) := by
  intro s
  have hc1 : Except.bind ((mkPeopleObj number entries).getItem "people")
      (fun a => Except.bind (a.index entries.length) (fun e => e.getItem "name"))
      = Except.error PyExc.indexError := by
    show Except.bind ((JValue.jArr entries).index entries.length)
      (fun e => e.getItem "name") = _
    rw [jArr_index_end entries]
    rfl
  simp only [ISSSpaceStation.peopleLoopBody, hc1]
  rfl

/-! ### The request counter: everything after `urlopen` preserves it -/

/-- A program fragment that issues no HTTP request. -/
def PreservesReq {α : Type} (m : Py α) : Prop :=
  ∀ s, ((m s).2).requests = s.requests

theorem preservesReq_pure {α : Type} (a : α) : PreservesReq (pure a : Py α) :=
  fun _ => rfl

theorem preservesReq_echo (l : Styled) : PreservesReq (echo l) :=
  fun _ => rfl

theorem preservesReq_pyRaise {α : Type} (e : PyExc) : PreservesReq (pyRaise e : Py α) :=
  fun _ => rfl

theorem preservesReq_pyExit {α : Type} (c : Int) : PreservesReq (pyExit c : Py α) :=
  fun _ => rfl

theorem preservesReq_liftExc {α : Type} (x : Except PyExc α) : PreservesReq (liftExc x) := by
  cases x <;> exact fun _ => rfl

theorem preservesReq_bind {α β : Type} {m : Py α} {g : α → Py β}
    (hm : PreservesReq m) (hg : ∀ a, PreservesReq (g a)) : PreservesReq (m >>= g) := by
  intro s
  show ((Py.bind m g s).2).requests = s.requests
  unfold Py.bind
  cases hms : m s with
  | mk r s1 =>
    have h1 : s1.requests = s.requests := by
      have h := hm s
      rw [hms] at h
      exact h
    cases r with
    | ok a => exact (hg a s1).trans h1
    | exc e => exact h1
    | exited c => exact h1

theorem preservesReq_ite {α : Type} (c : Prop) [Decidable c] {m1 m2 : Py α}
    (h1 : PreservesReq m1) (h2 : PreservesReq m2) :
    PreservesReq (if c then m1 else m2) := by
  split <;> assumption

theorem preservesReq_message_error {α : Type} (obj : JValue) (url : Request) :
    PreservesReq (ISSSpaceStation.message_error obj url : Py α) := by
  unfold ISSSpaceStation.message_error
  refine preservesReq_bind (preservesReq_liftExc _) fun m => ?_
  refine preservesReq_ite _ ?_ ?_
  · exact preservesReq_bind (preservesReq_liftExc _) fun r =>
      preservesReq_bind (preservesReq_echo _) fun _ => preservesReq_pyExit _
  · exact preservesReq_bind (preservesReq_pyRaise _) fun _ => preservesReq_pyExit _

theorem preservesReq_common_error {α : Type} (e : PyExc) (obj : JValue) :
    PreservesReq (ISSSpaceStation.common_error e obj : Py α) := by
  unfold ISSSpaceStation.common_error
  exact preservesReq_bind (preservesReq_echo _) fun _ => preservesReq_pyExit _

theorem preservesReq_tryCommon (obj : JValue) (body : Py Unit)
    (hb : PreservesReq body) : PreservesReq (ISSSpaceStation.tryCommon obj body) := by
  intro s
  unfold ISSSpaceStation.tryCommon
  cases hbs : body s with
  | mk r s1 =>
    have h1 : s1.requests = s.requests := by
      have h := hb s
      rw [hbs] at h
      exact h
    cases r with
    | ok a => exact h1
    | exited c => exact h1
    | exc e =>
      by_cases hc : e.caughtByCommon = true
      · simp only [hc, if_true]
        exact (preservesReq_common_error e obj s1).trans h1
      · simp only [hc, if_false]
        exact h1

theorem preservesReq_pyForRange (body : Nat → Py Unit)
    (hb : ∀ j, PreservesReq (body j)) :
    ∀ k i, PreservesReq (ISSSpaceStation.pyForRange body i k) := by
  intro k
  induction k with
  | zero => intro i; exact preservesReq_pure ()
  | succ k ih =>
    intro i
    exact preservesReq_bind (hb i) fun _ => ih (i + 1)

theorem preservesReq_passLoopBody (f : Int → String) (obj : JValue) (x : Nat) :
    PreservesReq (ISSSpaceStation.passLoopBody f obj x) := by
  unfold ISSSpaceStation.passLoopBody
  exact preservesReq_bind (preservesReq_liftExc _) fun d =>
    preservesReq_bind (preservesReq_liftExc _) fun r => preservesReq_echo _

theorem preservesReq_passingBody (f : Int → String) (obj : JValue) (url : Request) :
    PreservesReq (ISSSpaceStation.passingBody f obj url) := by
  unfold ISSSpaceStation.passingBody
  refine preservesReq_bind (preservesReq_liftExc _) fun m => ?_
  refine preservesReq_ite _ ?_ (preservesReq_message_error obj url)
  refine preservesReq_bind (preservesReq_liftExc _) fun la => ?_
  refine preservesReq_bind (preservesReq_liftExc _) fun lo => ?_
  refine preservesReq_bind (preservesReq_liftExc _) fun p => ?_
  refine preservesReq_bind (preservesReq_echo _) fun _ => ?_
  refine preservesReq_bind (preservesReq_echo _) fun _ => ?_
  refine preservesReq_bind (preservesReq_echo _) fun _ => ?_
  refine preservesReq_bind (preservesReq_echo _) fun _ => ?_
  refine preservesReq_bind (preservesReq_echo _) fun _ => ?_
  refine preservesReq_bind (preservesReq_echo _) fun _ => ?_
  refine preservesReq_bind (preservesReq_echo _) fun _ => ?_
  exact preservesReq_pyForRange _ (preservesReq_passLoopBody f obj) _ _

theorem preservesReq_passingTry (f : Int → String) (obj : JValue) (url : Request) :
    PreservesReq (ISSSpaceStation.passingTry f obj url) := by
  unfold ISSSpaceStation.passingTry
  exact preservesReq_bind (preservesReq_passingBody f obj url) fun _ => preservesReq_echo _

theorem preservesReq_locationBody (f : Int → String) (obj : JValue) (url : Request) :
    PreservesReq (ISSSpaceStation.locationBody f obj url) := by
  unfold ISSSpaceStation.locationBody
  refine preservesReq_bind (preservesReq_liftExc _) fun m => ?_
  refine preservesReq_ite _ ?_ (preservesReq_message_error obj url)
  refine preservesReq_bind (preservesReq_liftExc _) fun t => ?_
  refine preservesReq_bind (preservesReq_liftExc _) fun la => ?_
  refine preservesReq_bind (preservesReq_liftExc _) fun lo => ?_
  refine preservesReq_bind (preservesReq_echo _) fun _ => ?_
  refine preservesReq_bind (preservesReq_echo _) fun _ => ?_
  exact preservesReq_bind (preservesReq_echo _) fun _ => preservesReq_echo _

theorem preservesReq_peopleLoopBody (obj : JValue) (i : Nat) :
    PreservesReq (ISSSpaceStation.peopleLoopBody obj i) := by
  unfold ISSSpaceStation.peopleLoopBody
  exact preservesReq_bind (preservesReq_liftExc _) fun p =>
    preservesReq_bind (preservesReq_liftExc _) fun c => preservesReq_echo _

theorem preservesReq_peopleBody (obj : JValue) (url : Request) :
    PreservesReq (ISSSpaceStation.peopleBody obj url) := by
  unfold ISSSpaceStation.peopleBody
  refine preservesReq_bind (preservesReq_liftExc _) fun m => ?_
  refine preservesReq_ite _ ?_ (preservesReq_message_error obj url)
  refine preservesReq_bind (preservesReq_liftExc _) fun n => ?_
  refine preservesReq_bind (preservesReq_echo _) fun _ => ?_
  refine preservesReq_bind (preservesReq_echo _) fun _ => ?_
  refine preservesReq_bind (preservesReq_echo _) fun _ => ?_
  refine preservesReq_bind (preservesReq_echo _) fun _ => ?_
  exact preservesReq_pyForRange _ (preservesReq_peopleLoopBody obj) _ _

theorem preservesReq_peopleTry (obj : JValue) (url : Request) :
    PreservesReq (ISSSpaceStation.peopleTry obj url) := by
  unfold ISSSpaceStation.peopleTry
  exact preservesReq_bind (preservesReq_peopleBody obj url) fun _ => preservesReq_echo _

/-- The request count of a whole run is that of the raw computation. -/
theorem runProgram_requests (p : Py Unit) :
    (runProgram p).requests = ((p ⟨[], 0⟩).2).requests := by
  unfold runProgram
  cases h : p ⟨[], 0⟩ with
  | mk r s => cases r <;> rfl

/-! ### Whole-run evaluation lemmas -/

/-- Row indices drawn from `range'` are just the rows of the entry list. -/
theorem passRows_map (f : Int → String) (entries : List JValue) :
    (List.range' 0 entries.length).map (fun j => passRowOf f (entries.getD j JValue.jNull))
      = entries.map (passRowOf f) := by
  have h := range'_map_getD (passRowOf f) JValue.jNull entries 0
  simpa using h

theorem peopleRows_map (entries : List JValue) :
    (List.range' 0 entries.length).map (fun j => peopleRowOf (entries.getD j JValue.jNull))
      = entries.map peopleRowOf := by
  have h := range'_map_getD peopleRowOf JValue.jNull entries 0
  simpa using h

/-- The `try` block of `passing` on a canonical success response with
`passes` equal to the number of entries prints the header, one row per
entry in order, and the closing divider. -/
theorem passingTry_eval (f : Int → String) (latV lonV : JValue) (entries : List JValue)
    (url : Request) (hwf : ∀ e ∈ entries, passRowOk e) :
    ISSSpaceStation.passingTry f (mkPassObj latV lonV (Int.ofNat entries.length) entries) url ⟨[], 1⟩
      = (.ok (), ⟨passHeader latV lonV (Int.ofNat entries.length)
          ++ entries.map (passRowOf f) ++ [dashLine], 1⟩) := by
  have hloop := pyForRange_ok
    (ISSSpaceStation.passLoopBody f (mkPassObj latV lonV (Int.ofNat entries.length) entries))
    (fun j => passRowOf f (entries.getD j JValue.jNull)) entries.length
    (passLoopBody_eval f latV lonV (Int.ofNat entries.length) entries hwf)
    entries.length 0 (by omega)
  have hmid : ISSSpaceStation.passingTry f
      (mkPassObj latV lonV (Int.ofNat entries.length) entries) url ⟨[], 1⟩
      = Py.bind (ISSSpaceStation.pyForRange
          (ISSSpaceStation.passLoopBody f (mkPassObj latV lonV (Int.ofNat entries.length) entries))
          0 entries.length)
        (fun _ => echo dashLine)
        ⟨passHeader latV lonV (Int.ofNat entries.length), 1⟩ := rfl
  rw [hmid]
  unfold Py.bind
  rw [hloop ⟨passHeader latV lonV (Int.ofNat entries.length), 1⟩, passRows_map f entries]
  simp [echo, List.append_assoc]

/-- A full `passing` run on a canonical success response (valid
coordinates): the rendered table, exit code 0, one request. -/
theorem passing_success_run (f : Int → String) (lat lon : Rat) (latV lonV : JValue)
    (entries : List JValue)
    (h1 : ¬(lat < -80 ∨ lat > 80)) (h2 : ¬(lon < -180 ∨ lon > 180))
    (hwf : ∀ e ∈ entries, passRowOk e) :
    runProgram (ISSSpaceStation.passing f lat lon
        (.success (.parsed (mkPassObj latV lonV (Int.ofNat entries.length) entries))))
      = ⟨passHeader latV lonV (Int.ofNat entries.length) ++ entries.map (passRowOf f)
          ++ [dashLine], 0, 1⟩ := by
  have hmid : ISSSpaceStation.passing f lat lon
      (.success (.parsed (mkPassObj latV lonV (Int.ofNat entries.length) entries))) ⟨[], 0⟩
      = ISSSpaceStation.tryCommon (mkPassObj latV lonV (Int.ofNat entries.length) entries)
          (ISSSpaceStation.passingTry f (mkPassObj latV lonV (Int.ofNat entries.length) entries)
            ⟨ISSSpaceStation.PASSING_URL ++ "?" ++ ISSSpaceStation.urlencodeLatLon lat lon⟩)
          ⟨[], 1⟩ := by
    unfold ISSSpaceStation.passing
    rw [if_neg h1, if_neg h2]
    rfl
  unfold runProgram
  rw [hmid]
  unfold ISSSpaceStation.tryCommon
  rw [passingTry_eval f latV lonV entries _ hwf]

/-- A full `passing` run where `request.passes` exceeds the number of
entries: the loop prints the rows that exist, then `obj['response'][x]`
raises `IndexError`, which is not caught; the process dies with status 1
and the common-error exit path is not taken. -/
theorem passing_overrun_run (f : Int → String) (latV lonV : JValue)
    (entries : List JValue) (n : Nat) (hn : entries.length < n)
    (hwf : ∀ e ∈ entries, passRowOk e) :
    ISSSpaceStation.passing f 0 0
        (.success (.parsed (mkPassObj latV lonV (Int.ofNat n) entries))) ⟨[], 0⟩
      = (.exc .indexError,
          ⟨passHeader latV lonV (Int.ofNat n) ++ entries.map (passRowOf f), 1⟩) := by
  have hloop := pyForRange_overrun
    (ISSSpaceStation.passLoopBody f (mkPassObj latV lonV (Int.ofNat n) entries))
    (fun j => passRowOf f (entries.getD j JValue.jNull)) entries.length
    (passLoopBody_eval f latV lonV (Int.ofNat n) entries hwf)
    (passLoopBody_fail f latV lonV (Int.ofNat n) entries)
    n 0 (by omega) (by omega)
  have htry : ISSSpaceStation.passingTry f (mkPassObj latV lonV (Int.ofNat n) entries)
      ⟨ISSSpaceStation.PASSING_URL ++ "?" ++ ISSSpaceStation.urlencodeLatLon 0 0⟩ ⟨[], 1⟩
      = (.exc .indexError,
          ⟨passHeader latV lonV (Int.ofNat n) ++ entries.map (passRowOf f), 1⟩) := by
    have hmid2 : ISSSpaceStation.passingTry f (mkPassObj latV lonV (Int.ofNat n) entries)
        ⟨ISSSpaceStation.PASSING_URL ++ "?" ++ ISSSpaceStation.urlencodeLatLon 0 0⟩ ⟨[], 1⟩
        = Py.bind (ISSSpaceStation.pyForRange
            (ISSSpaceStation.passLoopBody f (mkPassObj latV lonV (Int.ofNat n) entries)) 0 n)
          (fun _ => echo dashLine)
          ⟨passHeader latV lonV (Int.ofNat n), 1⟩ := rfl
    rw [hmid2]
    unfold Py.bind
    rw [hloop ⟨passHeader latV lonV (Int.ofNat n), 1⟩]
    rw [show entries.length - 0 = entries.length from rfl, passRows_map f entries]
  have hmid : ISSSpaceStation.passing f 0 0
      (.success (.parsed (mkPassObj latV lonV (Int.ofNat n) entries))) ⟨[], 0⟩
      = ISSSpaceStation.tryCommon (mkPassObj latV lonV (Int.ofNat n) entries)
          (ISSSpaceStation.passingTry f (mkPassObj latV lonV (Int.ofNat n) entries)
            ⟨ISSSpaceStation.PASSING_URL ++ "?" ++ ISSSpaceStation.urlencodeLatLon 0 0⟩)
          ⟨[], 1⟩ := rfl
  rw [hmid]
  unfold ISSSpaceStation.tryCommon
  rw [htry]
  rfl

/-- The `try` block of `people` on a canonical success response with
`number` equal to the number of entries prints the header, one row per
person in order, and the closing divider. -/
theorem peopleTry_eval (entries : List JValue) (url : Request)
    (hwf : ∀ e ∈ entries, peopleRowOk e) :
    ISSSpaceStation.peopleTry (mkPeopleObj (Int.ofNat entries.length) entries) url ⟨[], 1⟩
      = (.ok (), ⟨peopleHeader ++ entries.map peopleRowOf ++ [dashLine], 1⟩) := by
  have hloop := pyForRange_ok
    (ISSSpaceStation.peopleLoopBody (mkPeopleObj (Int.ofNat entries.length) entries))
    (fun j => peopleRowOf (entries.getD j JValue.jNull)) entries.length
    (peopleLoopBody_eval (Int.ofNat entries.length) entries hwf)
    entries.length 0 (by omega)
  have hmid : ISSSpaceStation.peopleTry (mkPeopleObj (Int.ofNat entries.length) entries) url ⟨[], 1⟩
      = Py.bind (ISSSpaceStation.pyForRange
          (ISSSpaceStation.peopleLoopBody (mkPeopleObj (Int.ofNat entries.length) entries))
          0 entries.length)
        (fun _ => echo dashLine)
        ⟨peopleHeader, 1⟩ := rfl
  rw [hmid]
  unfold Py.bind
  rw [hloop ⟨peopleHeader, 1⟩, peopleRows_map entries]
  simp [echo, List.append_assoc]

/-- A full `people` run on a canonical success response: the rendered
roster, exit code 0, one request. -/
theorem people_success_run (entries : List JValue)
    (hwf : ∀ e ∈ entries, peopleRowOk e) :
    runProgram (ISSSpaceStation.people
        (.success (.parsed (mkPeopleObj (Int.ofNat entries.length) entries))))
      = ⟨peopleHeader ++ entries.map peopleRowOf ++ [dashLine], 0, 1⟩ := by
  have hmid : ISSSpaceStation.people
      (.success (.parsed (mkPeopleObj (Int.ofNat entries.length) entries))) ⟨[], 0⟩
      = ISSSpaceStation.tryCommon (mkPeopleObj (Int.ofNat entries.length) entries)
          (ISSSpaceStation.peopleTry (mkPeopleObj (Int.ofNat entries.length) entries)
            ⟨ISSSpaceStation.PEOPLE_URL⟩) ⟨[], 1⟩ := rfl
  unfold runProgram
  rw [hmid]
  unfold ISSSpaceStation.tryCommon
  rw [peopleTry_eval entries _ hwf]

/-- A full `people` run where `number` exceeds the number of entries:
rows that exist are printed, then `IndexError` propagates uncaught. -/
theorem people_overrun_run (entries : List JValue) (n : Nat)
    (hn : entries.length < n) (hwf : ∀ e ∈ entries, peopleRowOk e) :
    ISSSpaceStation.people (.success (.parsed (mkPeopleObj (Int.ofNat n) entries))) ⟨[], 0⟩
      = (.exc .indexError, ⟨peopleHeader ++ entries.map peopleRowOf, 1⟩) := by
  have hloop := pyForRange_overrun
    (ISSSpaceStation.peopleLoopBody (mkPeopleObj (Int.ofNat n) entries))
    (fun j => peopleRowOf (entries.getD j JValue.jNull)) entries.length
    (peopleLoopBody_eval (Int.ofNat n) entries hwf)
    (peopleLoopBody_fail (Int.ofNat n) entries)
    n 0 (by omega) (by omega)
  have htry : ISSSpaceStation.peopleTry (mkPeopleObj (Int.ofNat n) entries)
      ⟨ISSSpaceStation.PEOPLE_URL⟩ ⟨[], 1⟩
      = (.exc .indexError, ⟨peopleHeader ++ entries.map peopleRowOf, 1⟩) := by
    have hmid2 : ISSSpaceStation.peopleTry (mkPeopleObj (Int.ofNat n) entries)
        ⟨ISSSpaceStation.PEOPLE_URL⟩ ⟨[], 1⟩
        = Py.bind (ISSSpaceStation.pyForRange
            (ISSSpaceStation.peopleLoopBody (mkPeopleObj (Int.ofNat n) entries)) 0 n)
          (fun _ => echo dashLine)
          ⟨peopleHeader, 1⟩ := rfl
    rw [hmid2]
    unfold Py.bind
    rw [hloop ⟨peopleHeader, 1⟩]
    rw [show entries.length - 0 = entries.length from rfl, peopleRows_map entries]
  have hmid : ISSSpaceStation.people
      (.success (.parsed (mkPeopleObj (Int.ofNat n) entries))) ⟨[], 0⟩
      = ISSSpaceStation.tryCommon (mkPeopleObj (Int.ofNat n) entries)
          (ISSSpaceStation.peopleTry (mkPeopleObj (Int.ofNat n) entries)
            ⟨ISSSpaceStation.PEOPLE_URL⟩) ⟨[], 1⟩ := rfl
  rw [hmid]
  unfold ISSSpaceStation.tryCommon
  rw [htry]
  rfl

/-- A successful `location` response (canonical shape; the timestamp field
is named `timestampss`, as the code reads it). -/
def mkLocObj (t : Int) (latV lonV : JValue) : JValue :=
  .jObj [("message", .jStr "success"), ("timestampss", .jInt t),
         ("iss_position", .jObj [("latitude", latV), ("longitude", lonV)])]

/-- The four lines `location` prints on success. -/
def locLines (f : Int → String) (t : Int) (latV lonV : JValue) : List Styled :=
  [⟨"\nThe ISS current location", "bright_white", true⟩,
   ⟨"\nTime:      " ++ f t, "green", false⟩,
   ⟨"Latitude:  " ++ latV.pyStr, "green", false⟩,
   ⟨"Longitude: " ++ lonV.pyStr, "green", false⟩]

/-- The five lines `json_error` prints. -/
def decodeLines (msg doc : String) (pos lineno colno : Nat) : List Styled :=
  [⟨msg, "red", false⟩, ⟨doc, "red", false⟩, ⟨toString pos, "red", false⟩,
   ⟨toString lineno, "red", false⟩, ⟨toString colno, "red", false⟩]

/-- The `passing` latitude validation message. -/
def latMsgLine : Styled := ⟨"Latitude must be number between -80.0 and 80.0", "red", false⟩

/-- The `passing` longitude validation message. -/
def lonMsgLine : Styled := ⟨"Longitude must be number between -180.0 and 180.0", "red", false⟩

theorem location_success_run (f : Int → String) (t : Int) (latV lonV : JValue) :
    runProgram (ISSSpaceStation.location f (.success (.parsed (mkLocObj t latV lonV))))
      = ⟨locLines f t latV lonV, 0, 1⟩ := rfl

theorem location_transport_run (f : Int → String) (reason : String) :
    runProgram (ISSSpaceStation.location f (.urlError reason))
      = ⟨[⟨reason, "red", false⟩], -1, 1⟩ := rfl

theorem people_transport_run (reason : String) :
    runProgram (ISSSpaceStation.people (.urlError reason))
      = ⟨[⟨reason, "red", false⟩], -1, 1⟩ := rfl

theorem location_decode_run (f : Int → String) (msg doc : String) (pos lineno colno : Nat) :
    runProgram (ISSSpaceStation.location f (.success (.decodeError msg doc pos lineno colno)))
      = ⟨decodeLines msg doc pos lineno colno, -1, 1⟩ := rfl

theorem people_decode_run (msg doc : String) (pos lineno colno : Nat) :
    runProgram (ISSSpaceStation.people (.success (.decodeError msg doc pos lineno colno)))
      = ⟨decodeLines msg doc pos lineno colno, -1, 1⟩ := rfl

/-- Out-of-range latitude: the latitude message, exit `-1`, zero requests,
whatever the network would have answered. -/
theorem passing_latfail_run (f : Int → String) (lat lon : Rat) (env : HttpResult)
    (h1 : lat < -80 ∨ lat > 80) :
    runProgram (ISSSpaceStation.passing f lat lon env) = ⟨[latMsgLine], -1, 0⟩ := by
  have hmid : ISSSpaceStation.passing f lat lon env ⟨[], 0⟩
      = (.exited (-1), ⟨[latMsgLine], 0⟩) := by
    unfold ISSSpaceStation.passing
    rw [if_pos h1]
    rfl
  unfold runProgram
  rw [hmid]

/-- In-range latitude but out-of-range longitude: the longitude message,
exit `-1`, zero requests. -/
theorem passing_lonfail_run (f : Int → String) (lat lon : Rat) (env : HttpResult)
    (h1 : ¬(lat < -80 ∨ lat > 80)) (h2 : lon < -180 ∨ lon > 180) :
    runProgram (ISSSpaceStation.passing f lat lon env) = ⟨[lonMsgLine], -1, 0⟩ := by
  have hmid : ISSSpaceStation.passing f lat lon env ⟨[], 0⟩
      = (.exited (-1), ⟨[lonMsgLine], 0⟩) := by
    unfold ISSSpaceStation.passing
    rw [if_neg h1, if_pos h2]
    rfl
  unfold runProgram
  rw [hmid]

theorem passing_transport_run (f : Int → String) (lat lon : Rat) (reason : String)
    (h1 : ¬(lat < -80 ∨ lat > 80)) (h2 : ¬(lon < -180 ∨ lon > 180)) :
    runProgram (ISSSpaceStation.passing f lat lon (.urlError reason))
      = ⟨[⟨reason, "red", false⟩], -1, 1⟩ := by
  have hmid : ISSSpaceStation.passing f lat lon (.urlError reason) ⟨[], 0⟩
      = (.exited (-1), ⟨[⟨reason, "red", false⟩], 1⟩) := by
    unfold ISSSpaceStation.passing
    rw [if_neg h1, if_neg h2]
    rfl
  unfold runProgram
  rw [hmid]

theorem passing_decode_run (f : Int → String) (lat lon : Rat)
    (msg doc : String) (pos lineno colno : Nat)
    (h1 : ¬(lat < -80 ∨ lat > 80)) (h2 : ¬(lon < -180 ∨ lon > 180)) :
    runProgram (ISSSpaceStation.passing f lat lon
        (.success (.decodeError msg doc pos lineno colno)))
      = ⟨decodeLines msg doc pos lineno colno, -1, 1⟩ := by
  have hmid : ISSSpaceStation.passing f lat lon
      (.success (.decodeError msg doc pos lineno colno)) ⟨[], 0⟩
      = (.exited (-1), ⟨decodeLines msg doc pos lineno colno, 1⟩) := by
    unfold ISSSpaceStation.passing
    rw [if_neg h1, if_neg h2]
    rfl
  unfold runProgram
  rw [hmid]

/-- A well-formed success response with no `timestampss` key: the
`KeyError` is caught and reported by `common_error`, exit `-1`. -/
theorem location_schema_run (f : Int → String) (fields : List (String × JValue))
    (h1 : findField fields "message" = some (JValue.jStr "success"))
    (h2 : findField fields "timestampss" = none) :
    runProgram (ISSSpaceStation.location f (.success (.parsed (.jObj fields))))
      = ⟨[⟨ISSSpaceStation.commonMsg (.keyError "timestampss") (.jObj fields), "red", false⟩],
          -1, 1⟩ := by
  have hm : (JValue.jObj fields).getItem "message" = Except.ok (JValue.jStr "success") := by
    simp [JValue.getItem, h1]
  have ht : Except.bind ((JValue.jObj fields).getItem "timestampss") pyInt
      = Except.error (PyExc.keyError "timestampss") := by
    simp [JValue.getItem, h2]
    rfl
  have hbody : ISSSpaceStation.locationBody f (.jObj fields) ⟨ISSSpaceStation.LOCATION_URL⟩ ⟨[], 1⟩
      = (.exc (.keyError "timestampss"), ⟨[], 1⟩) := by
    simp only [ISSSpaceStation.locationBody]
    rw [hm, ht]
    rfl
  have hmid : ISSSpaceStation.location f (.success (.parsed (.jObj fields))) ⟨[], 0⟩
      = ISSSpaceStation.tryCommon (.jObj fields)
          (ISSSpaceStation.locationBody f (.jObj fields) ⟨ISSSpaceStation.LOCATION_URL⟩)
          ⟨[], 1⟩ := rfl
  unfold runProgram
  rw [hmid]
  unfold ISSSpaceStation.tryCommon
  rw [hbody]
  rfl

/-- A success response whose `timestampss` value is `None`: `int(None)`
raises `TypeError`, which is in the caught tuple; the common-error report
(naming the error and showing the whole object) is printed and the
process exits `-1`. -/
theorem location_wrongtype_run (f : Int → String) (fields : List (String × JValue))
    (h1 : findField fields "message" = some (JValue.jStr "success"))
    (h2 : findField fields "timestampss" = some JValue.jNull) :
    runProgram (ISSSpaceStation.location f (.success (.parsed (.jObj fields))))
      = ⟨[⟨ISSSpaceStation.commonMsg (.typeError intOfNoneMsg) (.jObj fields), "red", false⟩],
          -1, 1⟩ := by
  have hm : (JValue.jObj fields).getItem "message" = Except.ok (JValue.jStr "success") := by
    simp [JValue.getItem, h1]
  have ht : Except.bind ((JValue.jObj fields).getItem "timestampss") pyInt
      = Except.error (PyExc.typeError intOfNoneMsg) := by
    simp [JValue.getItem, h2]
    rfl
  have hbody : ISSSpaceStation.locationBody f (.jObj fields)
      ⟨ISSSpaceStation.LOCATION_URL⟩ ⟨[], 1⟩
      = (.exc (.typeError intOfNoneMsg), ⟨[], 1⟩) := by
    simp only [ISSSpaceStation.locationBody]
    rw [hm, ht]
    rfl
  have hmid : ISSSpaceStation.location f (.success (.parsed (.jObj fields))) ⟨[], 0⟩
      = ISSSpaceStation.tryCommon (.jObj fields)
          (ISSSpaceStation.locationBody f (.jObj fields) ⟨ISSSpaceStation.LOCATION_URL⟩)
          ⟨[], 1⟩ := rfl
  unfold runProgram
  rw [hmid]
  unfold ISSSpaceStation.tryCommon
  rw [hbody]
  rfl

/-- A success response whose `timestampss` is a non-numeric string:
`int(...)` raises `ValueError`, which is **not** in the caught tuple;
nothing is printed and the process dies on the unhandled exception with
status 1 (not via `exit(-1)`). -/
theorem location_valueerror_run (f : Int → String) (fields : List (String × JValue))
    (s : String)
    (h1 : findField fields "message" = some (JValue.jStr "success"))
    (h2 : findField fields "timestampss" = some (JValue.jStr s))
    (hs : pyStrToInt? s = none) :
    runProgram (ISSSpaceStation.location f (.success (.parsed (.jObj fields))))
      = ⟨[], 1, 1⟩ := by
  have hm : (JValue.jObj fields).getItem "message" = Except.ok (JValue.jStr "success") := by
    simp [JValue.getItem, h1]
  have ht : Except.bind ((JValue.jObj fields).getItem "timestampss") pyInt
      = Except.error (PyExc.valueError
          ("invalid literal for int() with base 10: " ++ pyReprStr s)) := by
    simp only [JValue.getItem]
    rw [h2]
    show pyInt (JValue.jStr s) = _
    simp only [pyInt]
    rw [hs]
  have hbody : ISSSpaceStation.locationBody f (.jObj fields)
      ⟨ISSSpaceStation.LOCATION_URL⟩ ⟨[], 1⟩
      = (.exc (.valueError ("invalid literal for int() with base 10: " ++ pyReprStr s)),
          ⟨[], 1⟩) := by
    simp only [ISSSpaceStation.locationBody]
    rw [hm, ht]
    rfl
  have hmid : ISSSpaceStation.location f (.success (.parsed (.jObj fields))) ⟨[], 0⟩
      = ISSSpaceStation.tryCommon (.jObj fields)
          (ISSSpaceStation.locationBody f (.jObj fields) ⟨ISSSpaceStation.LOCATION_URL⟩)
          ⟨[], 1⟩ := rfl
  unfold runProgram
  rw [hmid]
  unfold ISSSpaceStation.tryCommon
  rw [hbody]
  rfl

/-- `passing` (valid coordinates) on a success response with no `request`
key: `KeyError` caught, common-error report, exit `-1`. -/
theorem passing_schema_run (f : Int → String) (fields : List (String × JValue))
    (h1 : findField fields "message" = some (JValue.jStr "success"))
    (h2 : findField fields "request" = none) :
    runProgram (ISSSpaceStation.passing f 0 0 (.success (.parsed (.jObj fields))))
      = ⟨[⟨ISSSpaceStation.commonMsg (.keyError "request") (.jObj fields), "red", false⟩],
          -1, 1⟩ := by
  have hm : (JValue.jObj fields).getItem "message" = Except.ok (JValue.jStr "success") := by
    simp [JValue.getItem, h1]
  have hreq : Except.bind ((JValue.jObj fields).getItem "request")
      (fun r => r.getItem "latitude") = Except.error (PyExc.keyError "request") := by
    simp [JValue.getItem, h2]
    rfl
  have hbody : ISSSpaceStation.passingBody f (.jObj fields)
      ⟨ISSSpaceStation.PASSING_URL ++ "?" ++ ISSSpaceStation.urlencodeLatLon 0 0⟩ ⟨[], 1⟩
      = (.exc (.keyError "request"), ⟨[], 1⟩) := by
    simp only [ISSSpaceStation.passingBody]
    rw [hm, hreq]
    rfl
  have htry : ISSSpaceStation.passingTry f (.jObj fields)
      ⟨ISSSpaceStation.PASSING_URL ++ "?" ++ ISSSpaceStation.urlencodeLatLon 0 0⟩ ⟨[], 1⟩
      = (.exc (.keyError "request"), ⟨[], 1⟩) := by
    show Py.bind (ISSSpaceStation.passingBody f (.jObj fields)
        ⟨ISSSpaceStation.PASSING_URL ++ "?" ++ ISSSpaceStation.urlencodeLatLon 0 0⟩)
      (fun _ => echo dashLine) ⟨[], 1⟩ = _
    unfold Py.bind
    rw [hbody]
  have hmid : ISSSpaceStation.passing f 0 0 (.success (.parsed (.jObj fields))) ⟨[], 0⟩
      = ISSSpaceStation.tryCommon (.jObj fields)
          (ISSSpaceStation.passingTry f (.jObj fields)
            ⟨ISSSpaceStation.PASSING_URL ++ "?" ++ ISSSpaceStation.urlencodeLatLon 0 0⟩)
          ⟨[], 1⟩ := rfl
  unfold runProgram
  rw [hmid]
  unfold ISSSpaceStation.tryCommon
  rw [htry]
  rfl

/-- `people` on a success response with no `number` key: `KeyError`
caught, common-error report, exit `-1`. -/
theorem people_schema_run (fields : List (String × JValue))
    (h1 : findField fields "message" = some (JValue.jStr "success"))
    (h2 : findField fields "number" = none) :
    runProgram (ISSSpaceStation.people (.success (.parsed (.jObj fields))))
      = ⟨[⟨ISSSpaceStation.commonMsg (.keyError "number") (.jObj fields), "red", false⟩],
          -1, 1⟩ := by
  have hm : (JValue.jObj fields).getItem "message" = Except.ok (JValue.jStr "success") := by
    simp [JValue.getItem, h1]
  have hnum : Except.bind ((JValue.jObj fields).getItem "number") pyInt
      = Except.error (PyExc.keyError "number") := by
    simp [JValue.getItem, h2]
    rfl
  have hbody : ISSSpaceStation.peopleBody (.jObj fields)
      ⟨ISSSpaceStation.PEOPLE_URL⟩ ⟨[], 1⟩
      = (.exc (.keyError "number"), ⟨[], 1⟩) := by
    simp only [ISSSpaceStation.peopleBody]
    rw [hm, hnum]
    rfl
  have htry : ISSSpaceStation.peopleTry (.jObj fields) ⟨ISSSpaceStation.PEOPLE_URL⟩ ⟨[], 1⟩
      = (.exc (.keyError "number"), ⟨[], 1⟩) := by
    show Py.bind (ISSSpaceStation.peopleBody (.jObj fields) ⟨ISSSpaceStation.PEOPLE_URL⟩)
      (fun _ => echo dashLine) ⟨[], 1⟩ = _
    unfold Py.bind
    rw [hbody]
  have hmid : ISSSpaceStation.people (.success (.parsed (.jObj fields))) ⟨[], 0⟩
      = ISSSpaceStation.tryCommon (.jObj fields)
          (ISSSpaceStation.peopleTry (.jObj fields) ⟨ISSSpaceStation.PEOPLE_URL⟩)
          ⟨[], 1⟩ := rfl
  unfold runProgram
  rw [hmid]
  unfold ISSSpaceStation.tryCommon
  rw [htry]
  rfl

/-! ### Request counting per operation -/

theorem location_requests (f : Int → String) (env : HttpResult) :
    (runProgram (ISSSpaceStation.location f env)).requests = 1 := by
  rw [runProgram_requests]
  cases env with
  | urlError reason => rfl
  | success body =>
    cases body with
    | decodeError msg doc pos lineno colno => rfl
    | parsed v =>
      have hmid : ISSSpaceStation.location f (.success (.parsed v)) ⟨[], 0⟩
          = ISSSpaceStation.tryCommon v
              (ISSSpaceStation.locationBody f v ⟨ISSSpaceStation.LOCATION_URL⟩) ⟨[], 1⟩ := rfl
      rw [hmid]
      exact preservesReq_tryCommon v _ (preservesReq_locationBody f v _) ⟨[], 1⟩

theorem people_requests (env : HttpResult) :
    (runProgram (ISSSpaceStation.people env)).requests = 1 := by
  rw [runProgram_requests]
  cases env with
  | urlError reason => rfl
  | success body =>
    cases body with
    | decodeError msg doc pos lineno colno => rfl
    | parsed v =>
      have hmid : ISSSpaceStation.people (.success (.parsed v)) ⟨[], 0⟩
          = ISSSpaceStation.tryCommon v
              (ISSSpaceStation.peopleTry v ⟨ISSSpaceStation.PEOPLE_URL⟩) ⟨[], 1⟩ := rfl
      rw [hmid]
      exact preservesReq_tryCommon v _ (preservesReq_peopleTry v _) ⟨[], 1⟩

theorem passing_requests_valid (f : Int → String) (lat lon : Rat) (env : HttpResult)
    (h1 : ¬(lat < -80 ∨ lat > 80)) (h2 : ¬(lon < -180 ∨ lon > 180)) :
    (runProgram (ISSSpaceStation.passing f lat lon env)).requests = 1 := by
  rw [runProgram_requests]
  cases env with
  | urlError reason =>
    have hmid : ISSSpaceStation.passing f lat lon (.urlError reason) ⟨[], 0⟩
        = (.exited (-1), ⟨[⟨reason, "red", false⟩], 1⟩) := by
      unfold ISSSpaceStation.passing
      rw [if_neg h1, if_neg h2]
      rfl
    rw [hmid]
  | success body =>
    cases body with
    | decodeError msg doc pos lineno colno =>
      have hmid : ISSSpaceStation.passing f lat lon
          (.success (.decodeError msg doc pos lineno colno)) ⟨[], 0⟩
          = (.exited (-1), ⟨decodeLines msg doc pos lineno colno, 1⟩) := by
        unfold ISSSpaceStation.passing
        rw [if_neg h1, if_neg h2]
        rfl
      rw [hmid]
    | parsed v =>
      have hmid : ISSSpaceStation.passing f lat lon (.success (.parsed v)) ⟨[], 0⟩
          = ISSSpaceStation.tryCommon v (ISSSpaceStation.passingTry f v
              ⟨ISSSpaceStation.PASSING_URL ++ "?" ++ ISSSpaceStation.urlencodeLatLon lat lon⟩)
              ⟨[], 1⟩ := by
        unfold ISSSpaceStation.passing
        rw [if_neg h1, if_neg h2]
        rfl
      rw [hmid]
      exact preservesReq_tryCommon v _ (preservesReq_passingTry f v _) ⟨[], 1⟩

theorem passing_requests_le (f : Int → String) (lat lon : Rat) (env : HttpResult) :
    (runProgram (ISSSpaceStation.passing f lat lon env)).requests ≤ 1 := by
  by_cases h1 : lat < -80 ∨ lat > 80
  · rw [passing_latfail_run f lat lon env h1]
    exact Nat.zero_le 1
  · by_cases h2 : lon < -180 ∨ lon > 180
    · rw [passing_lonfail_run f lat lon env h1 h2]
      exact Nat.zero_le 1
    · rw [passing_requests_valid f lat lon env h1 h2]

/-! ### Claim theorems -/

/-- Claim C1: for every latitude outside [-80, 80] the `passing` operation
echoes the latitude validation message and exits `-1` with no request
made; for in-range latitude but longitude outside [-180, 180] it echoes
the longitude validation message and exits `-1` with no request; for
coordinates inside both inclusive ranges the validation passes and exactly
one request is issued, whatever the network then does. -/
theorem C1_passing_validation (f : Int → String) (lat lon : Rat) (env : HttpResult) :
    (lat < -80 ∨ lat > 80 →
      runProgram (ISSSpaceStation.passing f lat lon env) = ⟨[latMsgLine], -1, 0⟩)
    ∧ (¬(lat < -80 ∨ lat > 80) → (lon < -180 ∨ lon > 180) →
      runProgram (ISSSpaceStation.passing f lat lon env) = ⟨[lonMsgLine], -1, 0⟩)
    ∧ (¬(lat < -80 ∨ lat > 80) → ¬(lon < -180 ∨ lon > 180) →
      (runProgram (ISSSpaceStation.passing f lat lon env)).requests = 1) :=
  ⟨fun h1 => passing_latfail_run f lat lon env h1,
   fun h1 h2 => passing_lonfail_run f lat lon env h1 h2,
   fun h1 h2 => passing_requests_valid f lat lon env h1 h2⟩

/-- Witness for C1 at latitude 100, longitude -200 and the origin. -/
theorem C1_passing_validation_witness :
    ((100 : Rat) < -80 ∨ (100 : Rat) > 80)
    ∧ runProgram (ISSSpaceStation.passing (fun _ => "") 100 0 (.urlError "refused"))
        = ⟨[latMsgLine], -1, 0⟩
    ∧ runProgram (ISSSpaceStation.passing (fun _ => "") 0 (-200) (.urlError "refused"))
        = ⟨[lonMsgLine], -1, 0⟩
    ∧ (runProgram (ISSSpaceStation.passing (fun _ => "") 0 0 (.urlError "refused"))).requests = 1 :=
  ⟨by decide,
   (C1_passing_validation (fun _ => "") 100 0 (.urlError "refused")).1 (by decide),
   (C1_passing_validation (fun _ => "") 0 (-200) (.urlError "refused")).2.1 (by decide) (by decide),
   (C1_passing_validation (fun _ => "") 0 0 (.urlError "refused")).2.2 (by decide) (by decide)⟩

/-- Claim C2: on a successful `passing` response whose `request.passes`
equals the number of `response` entries, the output is exactly the header
followed by one table row per entry, in response order, each showing the
entry's duration and its rise time put through the time conversion; and on
a successful `people` response whose `number` equals the number of
`people` entries, the output is exactly the header followed by one
name/craft row per person in order. -/
theorem C2_table_rendering (f : Int → String) (lat lon : Rat) (latV lonV : JValue)
    (entriesP entriesQ : List JValue)
    (h1 : ¬(lat < -80 ∨ lat > 80)) (h2 : ¬(lon < -180 ∨ lon > 180))
    (hP : ∀ e ∈ entriesP, passRowOk e) (hQ : ∀ e ∈ entriesQ, peopleRowOk e) :
    runProgram (ISSSpaceStation.passing f lat lon
        (.success (.parsed (mkPassObj latV lonV (Int.ofNat entriesP.length) entriesP))))
      = ⟨passHeader latV lonV (Int.ofNat entriesP.length) ++ entriesP.map (passRowOf f)
          ++ [dashLine], 0, 1⟩
    ∧ runProgram (ISSSpaceStation.people
        (.success (.parsed (mkPeopleObj (Int.ofNat entriesQ.length) entriesQ))))
      = ⟨peopleHeader ++ entriesQ.map peopleRowOf ++ [dashLine], 0, 1⟩ :=
  ⟨passing_success_run f lat lon latV lonV entriesP h1 h2 hP,
   people_success_run entriesQ hQ⟩

/-- A concrete two-pass response entry. -/
def wEntryP1 : JValue := .jObj [("duration", .jInt 600), ("risetime", .jInt 1590000000)]

/-- A second concrete pass response entry. -/
def wEntryP2 : JValue := .jObj [("duration", .jInt 420), ("risetime", .jInt 1590008000)]

/-- Concrete crew entries. -/
def wPerson1 : JValue := .jObj [("name", .jStr "Chris Cassidy"), ("craft", .jStr "ISS")]

def wPerson2 : JValue := .jObj [("name", .jStr "Anatoly Ivanishin"), ("craft", .jStr "ISS")]

def wPerson3 : JValue := .jObj [("name", .jStr "Ivan Vagner"), ("craft", .jStr "ISS")]

/-- A concrete stand-in for `str(datetime.fromtimestamp(t))`. -/
def wTime : Int → String := fun t => "time(" ++ toString t ++ ")"

/-- Witness for C2 with 2 pass entries and 3 crew entries. -/
theorem C2_table_rendering_witness :
    (¬((10 : Rat) < -80 ∨ (10 : Rat) > 80))
    ∧ (¬((20 : Rat) < -180 ∨ (20 : Rat) > 180))
    ∧ (∀ e ∈ [wEntryP1, wEntryP2], passRowOk e)
    ∧ (∀ e ∈ [wPerson1, wPerson2, wPerson3], peopleRowOk e)
    ∧ (runProgram (ISSSpaceStation.passing wTime 10 20
        (.success (.parsed (mkPassObj (.jStr "10.0") (.jStr "20.0")
          (Int.ofNat (List.length [wEntryP1, wEntryP2])) [wEntryP1, wEntryP2]))))
      = ⟨passHeader (.jStr "10.0") (.jStr "20.0") (Int.ofNat (List.length [wEntryP1, wEntryP2]))
          ++ List.map (passRowOf wTime) [wEntryP1, wEntryP2] ++ [dashLine], 0, 1⟩
    ∧ runProgram (ISSSpaceStation.people
        (.success (.parsed (mkPeopleObj (Int.ofNat (List.length [wPerson1, wPerson2, wPerson3]))
          [wPerson1, wPerson2, wPerson3]))))
      = ⟨peopleHeader ++ List.map peopleRowOf [wPerson1, wPerson2, wPerson3]
          ++ [dashLine], 0, 1⟩) :=
  ⟨by decide, by decide, by decide, by decide,
   C2_table_rendering wTime 10 20 (.jStr "10.0") (.jStr "20.0")
     [wEntryP1, wEntryP2] [wPerson1, wPerson2, wPerson3]
     (by decide) (by decide) (by decide) (by decide)⟩

/-- Claim C3: on a parsed `location` response with `message = "success"`,
the operation reads the timestamp from the field spelled `timestampss`,
converts it with the time formatter, and prints the converted time and the
`iss_position` latitude and longitude, exiting 0 after one request. -/
theorem C3_location_success (f : Int → String) (t : Int) (latV lonV : JValue) :
    runProgram (ISSSpaceStation.location f (.success (.parsed (mkLocObj t latV lonV))))
      = ⟨locLines f t latV lonV, 0, 1⟩ :=
  location_success_run f t latV lonV

/-- Claim C4: on a malformed-JSON body each operation prints the decode
error's message, document text, byte offset, line and column, and exits
`-1` (the report completes; the process does not die on an unhandled
exception). -/
theorem C4_decode_error (f : Int → String) (msg doc : String) (pos lineno colno : Nat) :
    runProgram (ISSSpaceStation.location f (.success (.decodeError msg doc pos lineno colno)))
      = ⟨decodeLines msg doc pos lineno colno, -1, 1⟩
    ∧ runProgram (ISSSpaceStation.people (.success (.decodeError msg doc pos lineno colno)))
      = ⟨decodeLines msg doc pos lineno colno, -1, 1⟩
    ∧ runProgram (ISSSpaceStation.passing f 0 0
        (.success (.decodeError msg doc pos lineno colno)))
      = ⟨decodeLines msg doc pos lineno colno, -1, 1⟩ :=
  ⟨location_decode_run f msg doc pos lineno colno,
   people_decode_run msg doc pos lineno colno,
   passing_decode_run f 0 0 msg doc pos lineno colno (by decide) (by decide)⟩

/-- The failing input for claim C5: a parsed response whose `message` is
neither `"success"` nor `"failure"`. -/
def unknownMsgObj : JValue := .jObj [("message", .jStr "mystery")]

/-- Claim C5 (code bug): on a response whose `message` is neither
`"success"` nor `"failure"`, the code tries to build
`'Unknown error. Url: ' + url + ...`, but `url` is a
`urllib.request.Request` object, so the concatenation raises `TypeError`;
the generic handler prints its common-error report (not the unknown-error
line) and the process exits `-1`. -/
theorem C5_unknown_message_typeerror (f : Int → String) :
    runProgram (ISSSpaceStation.location f (.success (.parsed unknownMsgObj)))
      = ⟨[⟨ISSSpaceStation.commonMsg (.typeError ISSSpaceStation.strPlusRequestMsg)
            unknownMsgObj, "red", false⟩], -1, 1⟩ := rfl

/-- Claim C6 (as amended): the process exits 0 on a successful run of each
operation, and exits `-1` on every transport error, decode error,
coordinate-validation error, and on every schema error whose failure
raises one of the caught exception types (a missing expected key raises
`KeyError`; a wrong-typed value such as `timestampss = None` raises
`TypeError` inside `int()`); but a wrong-typed value that makes `int()`
raise `ValueError` (a non-numeric `timestampss` string) is not caught —
the process then dies on the unhandled exception with status 1, not via
`exit(-1)`. -/
theorem C6_exit_codes (f : Int → String) (reason msg doc : String)
    (pos lineno colno : Nat) (t : Int) (latV lonV : JValue)
    (fields fieldsT fieldsV : List (String × JValue)) (s : String)
    (lat lon latBad lonBad : Rat)
    (entriesP entriesQ : List JValue) (env : HttpResult)
    (h1 : ¬(lat < -80 ∨ lat > 80)) (h2 : ¬(lon < -180 ∨ lon > 180))
    (hb1 : latBad < -80 ∨ latBad > 80) (hb2 : lonBad < -180 ∨ lonBad > 180)
    (hf1 : findField fields "message" = some (JValue.jStr "success"))
    (hf2 : findField fields "timestampss" = none)
    (hT1 : findField fieldsT "message" = some (JValue.jStr "success"))
    (hT2 : findField fieldsT "timestampss" = some JValue.jNull)
    (hV1 : findField fieldsV "message" = some (JValue.jStr "success"))
    (hV2 : findField fieldsV "timestampss" = some (JValue.jStr s))
    (hs : pyStrToInt? s = none)
    (hP : ∀ e ∈ entriesP, passRowOk e) (hQ : ∀ e ∈ entriesQ, peopleRowOk e) :
    (runProgram (ISSSpaceStation.location f
        (.success (.parsed (mkLocObj t latV lonV))))).exitCode = 0
    ∧ (runProgram (ISSSpaceStation.people
        (.success (.parsed (mkPeopleObj (Int.ofNat entriesQ.length) entriesQ))))).exitCode = 0
    ∧ (runProgram (ISSSpaceStation.passing f lat lon
        (.success (.parsed (mkPassObj latV lonV (Int.ofNat entriesP.length) entriesP))))).exitCode = 0
    ∧ (runProgram (ISSSpaceStation.location f (.urlError reason))).exitCode = -1
    ∧ (runProgram (ISSSpaceStation.people (.urlError reason))).exitCode = -1
    ∧ (runProgram (ISSSpaceStation.passing f lat lon (.urlError reason))).exitCode = -1
    ∧ (runProgram (ISSSpaceStation.location f
        (.success (.decodeError msg doc pos lineno colno)))).exitCode = -1
    ∧ (runProgram (ISSSpaceStation.people
        (.success (.decodeError msg doc pos lineno colno)))).exitCode = -1
    ∧ (runProgram (ISSSpaceStation.passing f lat lon
        (.success (.decodeError msg doc pos lineno colno)))).exitCode = -1
    ∧ (runProgram (ISSSpaceStation.location f
        (.success (.parsed (.jObj fields))))).exitCode = -1
    ∧ (runProgram (ISSSpaceStation.location f
        (.success (.parsed (.jObj fieldsT))))).exitCode = -1
    ∧ (runProgram (ISSSpaceStation.location f
        (.success (.parsed (.jObj fieldsV))))).exitCode = 1
    ∧ (runProgram (ISSSpaceStation.passing f latBad lon env)).exitCode = -1
    ∧ (runProgram (ISSSpaceStation.passing f lat lonBad env)).exitCode = -1 :=
  ⟨by rw [location_success_run f t latV lonV],
   by rw [people_success_run entriesQ hQ],
   by rw [passing_success_run f lat lon latV lonV entriesP h1 h2 hP],
   by rw [location_transport_run f reason],
   by rw [people_transport_run reason],
   by rw [passing_transport_run f lat lon reason h1 h2],
   by rw [location_decode_run f msg doc pos lineno colno],
   by rw [people_decode_run msg doc pos lineno colno],
   by rw [passing_decode_run f lat lon msg doc pos lineno colno h1 h2],
   by rw [location_schema_run f fields hf1 hf2],
   by rw [location_wrongtype_run f fieldsT hT1 hT2],
   by rw [location_valueerror_run f fieldsV s hV1 hV2 hs],
   by rw [passing_latfail_run f latBad lon env hb1],
   by rw [passing_lonfail_run f lat lonBad env h1 hb2]⟩

/-- Counterexample to claim C6 as stated: on the schema error
`{"message": "success", "timestampss": "abc"}` (a wrong-typed value, per
the spec taxonomy), the process exit code is 1 — it does not terminate by
exiting with `-1`. -/
theorem C6_exit_codes_cex :
    (runProgram (ISSSpaceStation.location wTime (.success (.parsed (.jObj
        [("message", JValue.jStr "success"),
         ("timestampss", JValue.jStr "abc")]))))).exitCode = 1
    ∧ ¬ (runProgram (ISSSpaceStation.location wTime (.success (.parsed (.jObj
        [("message", JValue.jStr "success"),
         ("timestampss", JValue.jStr "abc")]))))).exitCode = -1 :=
  ⟨rfl, by decide⟩

/-- Witness for C6 at concrete inputs. -/
theorem C6_exit_codes_witness :
    ((100 : Rat) < -80 ∨ (100 : Rat) > 80)
    ∧ ((200 : Rat) < -180 ∨ (200 : Rat) > 180)
    ∧ findField [("message", JValue.jStr "success")] "message" = some (JValue.jStr "success")
    ∧ findField [("message", JValue.jStr "success")] "timestampss" = none
    ∧ findField [("message", JValue.jStr "success"), ("timestampss", JValue.jNull)]
        "timestampss" = some JValue.jNull
    ∧ findField [("message", JValue.jStr "success"), ("timestampss", JValue.jStr "abc")]
        "timestampss" = some (JValue.jStr "abc")
    ∧ pyStrToInt? "abc" = none
    ∧ (runProgram (ISSSpaceStation.location wTime
        (.success (.parsed (mkLocObj 1690000000 (.jStr "10.1") (.jStr "-20.2")))))).exitCode = 0
    ∧ (runProgram (ISSSpaceStation.people
        (.success (.parsed (mkPeopleObj (Int.ofNat (List.length [wPerson1])) [wPerson1]))))).exitCode = 0
    ∧ (runProgram (ISSSpaceStation.passing wTime 0 0
        (.success (.parsed (mkPassObj (.jStr "10.1") (.jStr "-20.2")
          (Int.ofNat (List.length [wEntryP1])) [wEntryP1]))))).exitCode = 0
    ∧ (runProgram (ISSSpaceStation.location wTime (.urlError "refused"))).exitCode = -1
    ∧ (runProgram (ISSSpaceStation.people (.urlError "refused"))).exitCode = -1
    ∧ (runProgram (ISSSpaceStation.passing wTime 0 0 (.urlError "refused"))).exitCode = -1
    ∧ (runProgram (ISSSpaceStation.location wTime
        (.success (.decodeError "Expecting value" "<html>" 0 1 1)))).exitCode = -1
    ∧ (runProgram (ISSSpaceStation.people
        (.success (.decodeError "Expecting value" "<html>" 0 1 1)))).exitCode = -1
    ∧ (runProgram (ISSSpaceStation.passing wTime 0 0
        (.success (.decodeError "Expecting value" "<html>" 0 1 1)))).exitCode = -1
    ∧ (runProgram (ISSSpaceStation.location wTime
        (.success (.parsed (.jObj [("message", JValue.jStr "success")]))))).exitCode = -1
    ∧ (runProgram (ISSSpaceStation.location wTime
        (.success (.parsed (.jObj [("message", JValue.jStr "success"),
          ("timestampss", JValue.jNull)]))))).exitCode = -1
    ∧ (runProgram (ISSSpaceStation.location wTime
        (.success (.parsed (.jObj [("message", JValue.jStr "success"),
          ("timestampss", JValue.jStr "abc")]))))).exitCode = 1
    ∧ (runProgram (ISSSpaceStation.passing wTime 100 0 (.urlError "refused"))).exitCode = -1
    ∧ (runProgram (ISSSpaceStation.passing wTime 0 200 (.urlError "refused"))).exitCode = -1 :=
  ⟨by decide, by decide, rfl, rfl, rfl, rfl, rfl,
   C6_exit_codes wTime "refused" "Expecting value" "<html>" 0 1 1 1690000000
     (.jStr "10.1") (.jStr "-20.2") [("message", JValue.jStr "success")]
     [("message", JValue.jStr "success"), ("timestampss", JValue.jNull)]
     [("message", JValue.jStr "success"), ("timestampss", JValue.jStr "abc")] "abc"
     0 0 100 200 [wEntryP1] [wPerson1] (.urlError "refused")
     (by decide) (by decide) (by decide) (by decide) rfl rfl rfl rfl rfl rfl rfl
     (by decide) (by decide)⟩

/-- Claim C7 (as amended): on a well-formed success response in which an
expected key is absent (shown here for all three operations: `location`
lacking `timestampss`, `passing` lacking `request`, `people` lacking
`number`), and on a wrong-typed value whose failure raises a caught
exception type (`timestampss = None`, where `int(None)` raises
`TypeError`), the operation prints the common-error report naming the
offending exception and showing the whole parsed object, and exits `-1`;
but a wrong-typed value that makes `int()` raise `ValueError` (a
non-numeric `timestampss` string) prints nothing — the exception escapes
and the process dies with status 1. -/
theorem C7_schema_error (f : Int → String)
    (fieldsL fieldsP fieldsQ fieldsT fieldsV : List (String × JValue)) (s : String)
    (hL1 : findField fieldsL "message" = some (JValue.jStr "success"))
    (hL2 : findField fieldsL "timestampss" = none)
    (hP1 : findField fieldsP "message" = some (JValue.jStr "success"))
    (hP2 : findField fieldsP "request" = none)
    (hQ1 : findField fieldsQ "message" = some (JValue.jStr "success"))
    (hQ2 : findField fieldsQ "number" = none)
    (hT1 : findField fieldsT "message" = some (JValue.jStr "success"))
    (hT2 : findField fieldsT "timestampss" = some JValue.jNull)
    (hV1 : findField fieldsV "message" = some (JValue.jStr "success"))
    (hV2 : findField fieldsV "timestampss" = some (JValue.jStr s))
    (hs : pyStrToInt? s = none) :
    runProgram (ISSSpaceStation.location f (.success (.parsed (.jObj fieldsL))))
      = ⟨[⟨ISSSpaceStation.commonMsg (.keyError "timestampss") (.jObj fieldsL), "red", false⟩],
          -1, 1⟩
    ∧ runProgram (ISSSpaceStation.passing f 0 0 (.success (.parsed (.jObj fieldsP))))
      = ⟨[⟨ISSSpaceStation.commonMsg (.keyError "request") (.jObj fieldsP), "red", false⟩],
          -1, 1⟩
    ∧ runProgram (ISSSpaceStation.people (.success (.parsed (.jObj fieldsQ))))
      = ⟨[⟨ISSSpaceStation.commonMsg (.keyError "number") (.jObj fieldsQ), "red", false⟩],
          -1, 1⟩
    ∧ runProgram (ISSSpaceStation.location f (.success (.parsed (.jObj fieldsT))))
      = ⟨[⟨ISSSpaceStation.commonMsg (.typeError intOfNoneMsg) (.jObj fieldsT), "red", false⟩],
          -1, 1⟩
    ∧ runProgram (ISSSpaceStation.location f (.success (.parsed (.jObj fieldsV))))
      = ⟨[], 1, 1⟩ :=
  ⟨location_schema_run f fieldsL hL1 hL2,
   passing_schema_run f fieldsP hP1 hP2,
   people_schema_run fieldsQ hQ1 hQ2,
   location_wrongtype_run f fieldsT hT1 hT2,
   location_valueerror_run f fieldsV s hV1 hV2 hs⟩

/-- Counterexample to claim C7 as stated: on the wrong-typed value
`{"message": "success", "timestampss": "abc"}` no error is printed at all
(the output is empty; the `ValueError` escapes and the process dies with
status 1), so no printed error names the offending error or shows the
parsed object. -/
theorem C7_schema_error_cex :
    runProgram (ISSSpaceStation.location wTime (.success (.parsed (.jObj
        [("message", JValue.jStr "success"), ("timestampss", JValue.jStr "abc")]))))
      = ⟨[], 1, 1⟩
    ∧ (runProgram (ISSSpaceStation.location wTime (.success (.parsed (.jObj
        [("message", JValue.jStr "success"),
         ("timestampss", JValue.jStr "abc")]))))).output = [] :=
  ⟨rfl, rfl⟩

/-- Witness for C7 at concrete inputs: missing keys for all three
operations, `timestampss = None`, and `timestampss = "abc"`. -/
theorem C7_schema_error_witness :
    findField [("message", JValue.jStr "success")] "message" = some (JValue.jStr "success")
    ∧ findField [("message", JValue.jStr "success")] "timestampss" = none
    ∧ findField [("message", JValue.jStr "success")] "request" = none
    ∧ findField [("message", JValue.jStr "success")] "number" = none
    ∧ findField [("message", JValue.jStr "success"), ("timestampss", JValue.jNull)]
        "timestampss" = some JValue.jNull
    ∧ findField [("message", JValue.jStr "success"), ("timestampss", JValue.jStr "abc")]
        "timestampss" = some (JValue.jStr "abc")
    ∧ pyStrToInt? "abc" = none
    ∧ runProgram (ISSSpaceStation.location wTime
        (.success (.parsed (.jObj [("message", JValue.jStr "success")]))))
      = ⟨[⟨ISSSpaceStation.commonMsg (.keyError "timestampss")
            (.jObj [("message", JValue.jStr "success")]), "red", false⟩], -1, 1⟩
    ∧ runProgram (ISSSpaceStation.passing wTime 0 0
        (.success (.parsed (.jObj [("message", JValue.jStr "success")]))))
      = ⟨[⟨ISSSpaceStation.commonMsg (.keyError "request")
            (.jObj [("message", JValue.jStr "success")]), "red", false⟩], -1, 1⟩
    ∧ runProgram (ISSSpaceStation.people
        (.success (.parsed (.jObj [("message", JValue.jStr "success")]))))
      = ⟨[⟨ISSSpaceStation.commonMsg (.keyError "number")
            (.jObj [("message", JValue.jStr "success")]), "red", false⟩], -1, 1⟩
    ∧ runProgram (ISSSpaceStation.location wTime
        (.success (.parsed (.jObj [("message", JValue.jStr "success"),
          ("timestampss", JValue.jNull)]))))
      = ⟨[⟨ISSSpaceStation.commonMsg (.typeError intOfNoneMsg)
            (.jObj [("message", JValue.jStr "success"), ("timestampss", JValue.jNull)]),
            "red", false⟩], -1, 1⟩
    ∧ runProgram (ISSSpaceStation.location wTime
        (.success (.parsed (.jObj [("message", JValue.jStr "success"),
          ("timestampss", JValue.jStr "abc")]))))
      = ⟨[], 1, 1⟩ :=
  ⟨rfl, rfl, rfl, rfl, rfl, rfl, rfl,
   C7_schema_error wTime [("message", JValue.jStr "success")]
     [("message", JValue.jStr "success")] [("message", JValue.jStr "success")]
     [("message", JValue.jStr "success"), ("timestampss", JValue.jNull)]
     [("message", JValue.jStr "success"), ("timestampss", JValue.jStr "abc")] "abc"
     rfl rfl rfl rfl rfl rfl rfl rfl rfl rfl rfl⟩

/-- Claim C8: every invocation of `location` or `people` issues exactly
one request whatever the network does, `passing` issues at most one and
exactly one once validation passes, and on a transport failure the
underlying reason is the only output, the process exits `-1`, and the
request count stays 1 (no retry). -/
theorem C8_single_request (f : Int → String) (reason : String) (lat lon : Rat)
    (env : HttpResult)
    (h1 : ¬(lat < -80 ∨ lat > 80)) (h2 : ¬(lon < -180 ∨ lon > 180)) :
    (runProgram (ISSSpaceStation.location f env)).requests = 1
    ∧ (runProgram (ISSSpaceStation.people env)).requests = 1
    ∧ (∀ lat2 lon2 : Rat, (runProgram (ISSSpaceStation.passing f lat2 lon2 env)).requests ≤ 1)
    ∧ (runProgram (ISSSpaceStation.passing f lat lon env)).requests = 1
    ∧ runProgram (ISSSpaceStation.location f (.urlError reason))
        = ⟨[⟨reason, "red", false⟩], -1, 1⟩
    ∧ runProgram (ISSSpaceStation.people (.urlError reason))
        = ⟨[⟨reason, "red", false⟩], -1, 1⟩
    ∧ runProgram (ISSSpaceStation.passing f lat lon (.urlError reason))
        = ⟨[⟨reason, "red", false⟩], -1, 1⟩ :=
  ⟨location_requests f env, people_requests env,
   fun lat2 lon2 => passing_requests_le f lat2 lon2 env,
   passing_requests_valid f lat lon env h1 h2,
   location_transport_run f reason, people_transport_run reason,
   passing_transport_run f lat lon reason h1 h2⟩

/-- Witness for C8 at the origin with a refused connection. -/
theorem C8_single_request_witness :
    (¬((0 : Rat) < -80 ∨ (0 : Rat) > 80))
    ∧ (runProgram (ISSSpaceStation.location wTime (.urlError "refused"))).requests = 1
    ∧ (runProgram (ISSSpaceStation.people (.urlError "refused"))).requests = 1
    ∧ (runProgram (ISSSpaceStation.passing wTime 0 0 (.urlError "refused"))).requests = 1
    ∧ runProgram (ISSSpaceStation.passing wTime 0 0 (.urlError "refused"))
        = ⟨[⟨"refused", "red", false⟩], -1, 1⟩ :=
  ⟨by decide,
   (C8_single_request wTime "refused" 0 0 (.urlError "refused") (by decide) (by decide)).1,
   (C8_single_request wTime "refused" 0 0 (.urlError "refused") (by decide) (by decide)).2.1,
   (C8_single_request wTime "refused" 0 0 (.urlError "refused") (by decide) (by decide)).2.2.2.1,
   (C8_single_request wTime "refused" 0 0 (.urlError "refused") (by decide) (by decide)).2.2.2.2.2.2⟩

/-- Claim C9: when `request.passes` (resp. `number`) exceeds the length of
the `response` (resp. `people`) array, the loop indexes past the end; the
`IndexError` is not in the caught tuple, so the computation ends in a
propagating exception — the process dies with CPython's status 1 and the
handled common-error exit (`exit(-1)` with the common-error line) is not
taken: the output is exactly the header plus the existing rows. -/
theorem C9_overrun_uncaught (f : Int → String) (latV lonV : JValue)
    (entriesP entriesQ : List JValue) (nP nQ : Nat)
    (hnP : entriesP.length < nP) (hnQ : entriesQ.length < nQ)
    (hP : ∀ e ∈ entriesP, passRowOk e) (hQ : ∀ e ∈ entriesQ, peopleRowOk e) :
    PyExc.caughtByCommon .indexError = false
    ∧ ISSSpaceStation.passing f 0 0
        (.success (.parsed (mkPassObj latV lonV (Int.ofNat nP) entriesP))) ⟨[], 0⟩
      = (.exc .indexError,
          ⟨passHeader latV lonV (Int.ofNat nP) ++ entriesP.map (passRowOf f), 1⟩)
    ∧ runProgram (ISSSpaceStation.passing f 0 0
        (.success (.parsed (mkPassObj latV lonV (Int.ofNat nP) entriesP))))
      = ⟨passHeader latV lonV (Int.ofNat nP) ++ entriesP.map (passRowOf f), 1, 1⟩
    ∧ ISSSpaceStation.people
        (.success (.parsed (mkPeopleObj (Int.ofNat nQ) entriesQ))) ⟨[], 0⟩
      = (.exc .indexError, ⟨peopleHeader ++ entriesQ.map peopleRowOf, 1⟩)
    ∧ runProgram (ISSSpaceStation.people
        (.success (.parsed (mkPeopleObj (Int.ofNat nQ) entriesQ))))
      = ⟨peopleHeader ++ entriesQ.map peopleRowOf, 1, 1⟩ :=
  ⟨rfl,
   passing_overrun_run f latV lonV entriesP nP hnP hP,
   by unfold runProgram; rw [passing_overrun_run f latV lonV entriesP nP hnP hP],
   people_overrun_run entriesQ nQ hnQ hQ,
   by unfold runProgram; rw [people_overrun_run entriesQ nQ hnQ hQ]⟩

/-- Witness for C9: one entry, `passes`/`number` claiming two. -/
theorem C9_overrun_uncaught_witness :
    List.length [wEntryP1] < 2
    ∧ (∀ e ∈ [wEntryP1], passRowOk e)
    ∧ runProgram (ISSSpaceStation.passing wTime 0 0
        (.success (.parsed (mkPassObj (.jStr "0.0") (.jStr "0.0") (Int.ofNat 2) [wEntryP1]))))
      = ⟨passHeader (.jStr "0.0") (.jStr "0.0") (Int.ofNat 2)
          ++ List.map (passRowOf wTime) [wEntryP1], 1, 1⟩
    ∧ runProgram (ISSSpaceStation.people
        (.success (.parsed (mkPeopleObj (Int.ofNat 2) [wPerson1]))))
      = ⟨peopleHeader ++ List.map peopleRowOf [wPerson1], 1, 1⟩ :=
  ⟨by decide, by decide,
   (C9_overrun_uncaught wTime (.jStr "0.0") (.jStr "0.0") [wEntryP1] [wPerson1] 2 2
     (by decide) (by decide) (by decide) (by decide)).2.2.1,
   (C9_overrun_uncaught wTime (.jStr "0.0") (.jStr "0.0") [wEntryP1] [wPerson1] 2 2
     (by decide) (by decide) (by decide) (by decide)).2.2.2.2⟩

/-- Claim C10: the constructor stores `latitude` as a one-element tuple
(trailing comma) and `longitude` as given, but the three operations are
classmethods and never read the instance: any two constructor argument
pairs give identical output, exit code and request count for the same
operation arguments and HTTP response. -/
theorem C10_instance_state_unused (a b c d : Rat) (f : Int → String)
    (lat lon : Rat) (env : HttpResult) :
    (ISSSpaceStation.init a b).latitude = [a]
    ∧ (ISSSpaceStation.init a b).longitude = b
    ∧ ISSSpaceStation.locationVia (ISSSpaceStation.init a b) f env
        = ISSSpaceStation.locationVia (ISSSpaceStation.init c d) f env
    ∧ ISSSpaceStation.passingVia (ISSSpaceStation.init a b) f lat lon env
        = ISSSpaceStation.passingVia (ISSSpaceStation.init c d) f lat lon env
    ∧ ISSSpaceStation.peopleVia (ISSSpaceStation.init a b) env
        = ISSSpaceStation.peopleVia (ISSSpaceStation.init c d) env :=
  ⟨rfl, rfl, rfl, rfl, rfl⟩
